import Mathlib

/-!
# Verification of the WebJarvis agent core against its specification

This file gives a shallow embedding, in Lean 4, of the decision-support
subsystems of the WebJarvis browser agent:

* `src/agent/agent_state.py` — the agent state manager and its cycle detector;
* `src/context/manager.py` — the context/token budgeting manager and the
  requirement counters;
* `src/context/token_optimizer.py` — the token optimizer;
* `src/context/extractor.py` — relevance extraction;
* `src/agent/main_agent.py` — the budget check of the Decide phase, the
  `task_complete` gate and the JSON-repair logic for oracle tool calls;
* `src/agent/action_validator.py` — tiered action-result validation;
* `src/error/error_handler.py` — tiered error classification.

External collaborators (the OpenAI client, the tiktoken tokenizer, the
Playwright backend) are not part of the repository; they are abstracted as
function parameters (`enc`, `dec`, oracle parameters) of the embedded
definitions, so every theorem below is universally quantified over them
unless a concrete instance is needed for a counterexample.

Python dictionaries holding only string values (action parameters) are
embedded as association lists in insertion order; `None`-able fields are
`Option`s; Python truthiness of an optional string (`if d.get(k):`) is
`optTruthy`.
-/

namespace WebJarvis

/-! ## Python-flavoured string utilities -/

/-- Lower-casing of a single character as Python `str.lower` does for the
alphabets that occur in this code base: ASCII `A`–`Z` and Cyrillic
`А`–`Я` / `Ё`. -/
def pyLowerChar (c : Char) : Char :=
  if 'A' ≤ c ∧ c ≤ 'Z' then Char.ofNat (c.toNat + 32)
  else if 'А' ≤ c ∧ c ≤ 'Я' then Char.ofNat (c.toNat + 32)
  else if c = 'Ё' then 'ё'
  else c

/-- Python `str.lower`. -/
def pyLower (s : String) : String := String.mk (s.data.map pyLowerChar)

/-- Is `c` whitespace in the sense of Python `str.split()` /  `str.strip()`
(the characters that occur in this code base). -/
def pyIsSpace (c : Char) : Bool :=
  c = ' ' ∨ c = '\t' ∨ c = '\n' ∨ c = '\r'

/-- Python `str.strip()` (no argument): drop whitespace from both ends. -/
def pyStrip (s : String) : String :=
  String.mk ((s.data.dropWhile pyIsSpace).reverse.dropWhile pyIsSpace |>.reverse)

/-- Helper for `pySplit`: split a character list on whitespace runs. -/
def pySplitAux : List Char → List Char → List String
  | [], [] => []
  | [], acc => [String.mk acc.reverse]
  | c :: cs, acc =>
    if pyIsSpace c then
      match acc with
      | [] => pySplitAux cs []
      | _ => String.mk acc.reverse :: pySplitAux cs []
    else pySplitAux cs (c :: acc)

/-- Python `str.split()` with no separator: split on whitespace runs,
discarding empty fields. -/
def pySplit (s : String) : List String := pySplitAux s.data []

/-- Python `str.rstrip(chars)`: drop the characters of `chars` from the right
end of the string. -/
def pyRstrip (s : String) (chars : List Char) : String :=
  String.mk ((s.data.reverse.dropWhile (fun c => chars.contains c)).reverse)

/-- Boolean prefix test on character lists. -/
def isPrefC : List Char → List Char → Bool
  | [], _ => true
  | _ :: _, [] => false
  | a :: as, b :: bs => a = b && isPrefC as bs

/-- Boolean infix (substring) test on character lists. -/
def isInfC (p : List Char) : List Char → Bool
  | [] => isPrefC p []
  | c :: t => isPrefC p (c :: t) || isInfC p t

/-- Python `sub in s` on strings. -/
def sContains (s sub : String) : Bool := isInfC sub.data s.data

/-- Python truthiness of an optional string: present and non-empty. -/
def optTruthy : Option String → Bool
  | none => false
  | some s => s ≠ ""

/-- Python `a or b` on optional strings: the first truthy value, else `b`. -/
def pyOr (a b : Option String) : Option String :=
  if optTruthy a then a else b

/-- The number of distinct values in a list (Python `len(set(l))`). -/
def uniqueCount [BEq α] (l : List α) : Nat :=
  (l.foldl (fun acc x => if acc.contains x then acc else acc.concat x) []).length

/-- Python negative-index slice `l[-n:]`: the last `n` elements. -/
def pyLastN (l : List α) (n : Nat) : List α := l.drop (l.length - n)

/-- Python slice `s[:n]` on strings (by code point, as Python indexes). -/
def pyTake (s : String) (n : Nat) : String := String.mk (s.data.take n)

/-! ## Action parameters and their JSON serialization

Action parameter maps in the agent are JSON objects produced by the oracle;
the state manager only ever reads string-valued keys from them
(`description`, `element_description`, `url`, `query`) and serializes them
with `json.dumps(params, sort_keys=True)`.  We embed them as association
lists of strings in insertion order. -/

/-- An action parameter map: keys to string values, in insertion order. -/
abbrev Params := List (String × String)

/-- Python `params.get(k)`. -/
def pGet (p : Params) (k : String) : Option String :=
  (p.find? (fun kv => kv.1 = k)).map (·.2)

/-- Python `params.get(k, "")`. -/
def pGetD (p : Params) (k : String) : String := (pGet p k).getD ""

/-- Insert a key/value pair into a key-sorted association list. -/
def kvInsertSorted (kv : String × String) : Params → Params
  | [] => [kv]
  | x :: xs => if kv.1 < x.1 then kv :: x :: xs else x :: kvInsertSorted kv xs

/-- Sort an association list by key (stable), as `sort_keys=True` does. -/
def kvSort (p : Params) : Params := p.foldl (fun acc kv => kvInsertSorted kv acc) []

/-- `json.dumps` of a string: quoted (values in this development contain no
characters needing escapes). -/
def jsonStr (s : String) : String := "\"" ++ s ++ "\""

/-- Body of a serialized JSON object, comma-separated. -/
def jsonObjBody : Params → String
  | [] => ""
  | [kv] => jsonStr kv.1 ++ ": " ++ jsonStr kv.2
  | kv :: rest => jsonStr kv.1 ++ ": " ++ jsonStr kv.2 ++ ", " ++ jsonObjBody rest

/-- `json.dumps(params, sort_keys=True)` on a string-valued parameter map. -/
def jsonDumpsSorted (p : Params) : String :=
  "\x7b" ++ jsonObjBody (kvSort p) ++ "\x7d"

/-- Python `repr` of a string (single quotes). -/
def pyReprStr (s : String) : String := "'" ++ s ++ "'"

/-- Python `str(params)` (dict repr, insertion order). -/
def pyReprParamsBody : Params → String
  | [] => ""
  | [kv] => pyReprStr kv.1 ++ ": " ++ pyReprStr kv.2
  | kv :: rest => pyReprStr kv.1 ++ ": " ++ pyReprStr kv.2 ++ ", " ++ pyReprParamsBody rest

/-- Python `str(params)` on a parameter dict. -/
def pyReprParams (p : Params) : String :=
  "\x7b" ++ pyReprParamsBody p ++ "\x7d"

/-! ## `agent_state.py` — records, URL normalization, query normalization -/

/-- The `new_elements` sub-dictionary of an action record
(`main_agent.py`, `new_elements_info`). -/
structure NewElems where
  new_modals : Bool := false
  new_forms : Bool := false
  new_interactive_elements : Bool := false
deriving DecidableEq, Repr

/-- The slice of an action result used by the state manager: success flag,
error text, result URL. -/
structure ActionRes where
  success : Bool := true
  error : Option String := none
  url : Option String := none
deriving DecidableEq, Repr

/-- One entry of `AgentStateManager.action_history`
(the record appended in `main_agent.execute_task`). -/
structure ActionRec where
  action : String
  parameters : Params
  result : ActionRes
  page_changed : Bool
  new_elements : NewElems := {}
deriving DecidableEq, Repr

/-- `AgentStateManager.add_visited_url` / `is_url_visited` normalization:
`url.split('?')[0].split('#')[0].rstrip('/')`. -/
def normalizeUrl (url : String) : String :=
  pyRstrip (String.mk ((url.data.takeWhile (· ≠ '?')).takeWhile (· ≠ '#'))) ['/']

/-- `AgentStateManager._is_critical_action`. -/
def isCriticalAction (name : String) : Bool :=
  name = "navigate" || name = "click_element"

/-- `AgentStateManager._get_action_signature`: signature string, effective
page-changed flag, new-elements flag, action name. -/
def getActionSignature (a : ActionRec) : String × Bool × Bool × String :=
  let hasNew := a.new_elements.new_modals || a.new_elements.new_forms ||
    a.new_elements.new_interactive_elements
  let effective := a.page_changed || hasNew
  (a.action ++ ":" ++ jsonDumpsSorted a.parameters, effective, hasNew, a.action)

/-- The verdict dictionary returned by a positive cycle check.  Each
constructor corresponds to one of the checks of `detect_loop`, carrying the
fields its dictionary carries. -/
inductive LoopInfo where
  | consecutiveRepeat (reason : String) (action : String)
      (parameters : Option Params) (repeats : Nat) (is_critical : Bool)
  | repeatingError (reason error : String) (action : Option String)
      (parameters : Option Params) (repeats : Nat)
  | repeatingUrl (reason url : String) (repeats : Nat)
  | patternRepetition (reason : String) (pat : List String)
  | extractTextRepeat (reason error : String) (description : String) (repeats : Nat)
  | queryDomRepeat (reason error : String) (query : String) (repeats : Nat)
deriving Repr

/-- The scan loop of `_check_consecutive_repeats`: walk the signature list
carrying the current repeat count and the previous signature. -/
def scanRepeats (recent : List ActionRec) (ct nt : Nat) :
    List (String × Bool × Bool × String) → Nat → Option String → Option LoopInfo
  | [], _, _ => none
  | (sig, epc, hne, name) :: rest, cnt, lastSig =>
    if lastSig = some sig then
      if !epc && !hne then
        let cnt' := cnt + 1
        let threshold := if isCriticalAction name then ct else nt
        if cnt' ≥ threshold then
          some (.consecutiveRepeat
            ("Повторяющееся действие без изменения страницы (" ++ toString cnt' ++
              " раза): " ++ sig)
            name ((pyLastN recent cnt').head?.map (·.parameters)) cnt'
            (isCriticalAction name))
        else scanRepeats recent ct nt rest cnt' (some sig)
      else scanRepeats recent ct nt rest 1 (some sig)
    else scanRepeats recent ct nt rest 1 (some sig)

/-- `AgentStateManager._check_consecutive_repeats`. -/
def checkConsecutiveRepeats (recent : List ActionRec)
    (criticalThreshold : Nat := 2) (normalThreshold : Nat := 3) : Option LoopInfo :=
  if recent.length < 2 then none
  else scanRepeats recent criticalThreshold normalThreshold
    (recent.map getActionSignature) 1 none

/-- `AgentStateManager._check_repeating_errors`. -/
def checkRepeatingErrors (recent : List ActionRec) (threshold : Nat := 2) :
    Option LoopInfo :=
  let failing := recent.filter fun a => !a.result.success && optTruthy a.result.error
  let errorMessages := failing.map fun a => (a.result.error).getD ""
  let pageChanges := failing.map (·.page_changed)
  let actionNames := failing.map (·.action)
  let actionParams := failing.map (·.parameters)
  if errorMessages.length ≥ threshold then
    if uniqueCount errorMessages ≤ 1 && !pageChanges.any id then
      if uniqueCount actionNames ≤ 1 &&
          uniqueCount (actionParams.map pyReprParams) ≤ 1 then
        some (.repeatingError
          ("Повторяющееся действие с ошибкой без изменения страницы (" ++
            toString errorMessages.length ++ " раза): " ++
            (actionNames.head?.getD "unknown"))
          (errorMessages.head?.getD "") actionNames.head? actionParams.head?
          errorMessages.length)
      else none
    else none
  else none

/-- `AgentStateManager._check_repeating_urls`. -/
def checkRepeatingUrls (recent : List ActionRec) (threshold : Nat := 2) :
    Option LoopInfo :=
  let navs := recent.filter fun a => a.action = "navigate"
  let withUrl := navs.filter fun a =>
    optTruthy (pyOr a.result.url (pGet a.parameters "url"))
  let recentUrls := withUrl.map fun a =>
    normalizeUrl ((pyOr a.result.url (pGet a.parameters "url")).getD "")
  let pageChanges := withUrl.map (·.page_changed)
  if recentUrls.length ≥ threshold then
    if uniqueCount recentUrls ≤ 1 && !pageChanges.any id then
      some (.repeatingUrl
        ("Повторяющийся URL без изменения страницы (" ++
          toString recentUrls.length ++ " раза): " ++ (recentUrls.head?.getD ""))
        (recentUrls.head?.getD "") recentUrls.length)
    else none
  else none

/-- `AgentStateManager._check_pattern_repetition`: the inner loop over
`range(len - 4)`, i.e. a window of four descriptions is compared only while
at least five remain (faithful to the source's loop bound). -/
def patternScan : List String → Option (List String)
  | a :: b :: c :: d :: e :: rest =>
    if a = c ∧ b = d then some [a, b]
    else patternScan (b :: c :: d :: e :: rest)
  | _ => none

/-- `AgentStateManager._check_pattern_repetition`. -/
def checkPatternRepetition (descs : List String) : Option LoopInfo :=
  if descs.length ≥ 4 then
    match patternScan descs with
    | some pat =>
        some (.patternRepetition
          ("Паттерн повторения: " ++ String.intercalate " -> " pat) pat)
    | none => none
  else none

/-- `AgentStateManager._normalize_query`'s synonym table. -/
def querySynonyms : List (String × String) :=
  [("селектор", "селектор"), ("селекторы", "селектор"),
   ("идентификатор", "селектор"), ("идентификаторы", "селектор"),
   ("элемент", "элемент"), ("элементы", "элемент"),
   ("список", "список"), ("видны", "виден"), ("видно", "виден"),
   ("есть ли", "есть"), ("какие", "какой"), ("первый", "первый"),
   ("первые", "первый"), ("10", "10"), ("десять", "10")]

/-- `AgentStateManager._normalize_query`: lower-case, collapse whitespace,
strip trailing punctuation, apply the synonym table word by word. -/
def normalizeQuery (query : String) : String :=
  let normalized := pyStrip (pyLower query)
  let normalized := String.intercalate " " (pySplit normalized)
  let normalized := pyRstrip normalized ['?', '.', ',', '!', ';', ':']
  let words := pySplit normalized
  let normalizedWords := words.map fun w =>
    ((querySynonyms.find? (fun kv => kv.1 = w)).map (·.2)).getD w
  String.intercalate " " normalizedWords

/-- `AgentStateManager._are_queries_similar`.  The source compares
`len(common) / max(len1, len2) >= 0.7` in floating point; for the word-set
sizes that can occur the comparison agrees with the exact rational
comparison `10 * common ≥ 7 * max`, which is what we embed. -/
def areQueriesSimilar (query1 query2 : String) : Bool :=
  let words1 := (pySplit query1).foldl
    (fun acc w => if acc.contains w then acc else acc.concat w) []
  let words2 := (pySplit query2).foldl
    (fun acc w => if acc.contains w then acc else acc.concat w) []
  if words1.length < 3 ∨ words2.length < 3 then false
  else
    let common := (words1.filter (fun w => words2.contains w)).length
    10 * common ≥ 7 * max words1.length words2.length

/-- One entry of `query_dom_history` (`add_query_dom`). -/
structure QueryRec where
  query : String
  normalized_query : String
  answer : String
  url : String
  iteration : Nat
deriving DecidableEq, Repr

/-- `AgentStateManager.was_query_asked`. -/
def wasQueryAsked (history : List QueryRec) (query : String) (url : String := "") :
    Bool :=
  let normalizedQuery := normalizeQuery query
  history.any fun q =>
    let existingNormalized := normalizeQuery q.query
    if normalizedQuery = existingNormalized then
      url = "" || q.url = "" || url = q.url
    else if areQueriesSimilar normalizedQuery existingNormalized then
      url = "" || q.url = "" || url = q.url
    else false

/-- `AgentStateManager.get_query_answer`: the most recent matching record's
answer. -/
def getQueryAnswer (history : List QueryRec) (query : String) (url : String := "") :
    Option String :=
  let normalizedQuery := normalizeQuery query
  (history.reverse.find? fun q =>
    let existingNormalized := normalizeQuery q.query
    (normalizedQuery = existingNormalized ||
      areQueriesSimilar normalizedQuery existingNormalized) &&
    (url = "" || q.url = "" || url = q.url)).map (·.answer)

/-- `AgentStateManager.add_query_dom`: append, keep the last 20. -/
def addQueryDom (history : List QueryRec) (query answer : String)
    (url : String := "") (iteration : Nat := 0) : List QueryRec :=
  let h := history.concat
    { query := query, normalized_query := normalizeQuery query,
      answer := answer, url := url, iteration := iteration }
  if h.length > 20 then pyLastN h 20 else h

/-- The index pairs `i < j` visited by the nested loops of check 6 of
`detect_loop` (`for i in range(n): for j in range(i + 1, n)`). -/
def indexPairs (n : Nat) : List (Nat × Nat) :=
  (List.range n).flatMap fun i =>
    (List.range n).filterMap fun j => if i < j then some (i, j) else none

/-- `AgentStateManager.detect_loop` (lookback 4): the battery of checks 1–6
run over the recent window, first positive verdict wins. -/
def detectLoop (actionHistory : List ActionRec) (lookback : Nat := 4) :
    Option LoopInfo :=
  if actionHistory.length < 2 then none
  else
    let recentActions := pyLastN actionHistory (lookback * 2)
    match checkConsecutiveRepeats (pyLastN recentActions 6) 2 3 with
    | some v => some v
    | none =>
    match checkRepeatingErrors (pyLastN recentActions lookback) 2 with
    | some v => some v
    | none =>
    match checkRepeatingUrls (pyLastN recentActions lookback) 2 with
    | some v => some v
    | none =>
    let recentActionDescriptions := (pyLastN recentActions lookback).map fun a =>
      let desc := a.action
      if optTruthy (pGet a.parameters "description") then
        desc ++ ":" ++ pGetD a.parameters "description"
      else if optTruthy (pGet a.parameters "element_description") then
        desc ++ ":" ++ pGetD a.parameters "element_description"
      else if optTruthy (pGet a.parameters "url") then
        desc ++ ":" ++ normalizeUrl (pGetD a.parameters "url")
      else desc
    match checkPatternRepetition recentActionDescriptions with
    | some v => some v
    | none =>
    let afterPattern :=
      if recentActions.length ≥ 2 then
        let extractTextActions := (pyLastN recentActions 3).filter
          fun a => a.action = "extract_text"
        if extractTextActions.length ≥ 2 then
          let descriptions := extractTextActions.map
            fun a => pGetD a.parameters "description"
          let pageChanges := extractTextActions.map (·.page_changed)
          if uniqueCount descriptions ≤ 1 && (descriptions.head?.getD "") ≠ "" &&
              !pageChanges.any id then
            some (.extractTextRepeat
              ("Повторяющееся extract_text с тем же описанием без изменения страницы ("
                ++ toString extractTextActions.length ++ " раза): " ++
                (descriptions.head?.getD ""))
              ("extract_text с описанием '" ++ (descriptions.head?.getD "") ++
                "' повторяется без результата")
              (descriptions.head?.getD "") extractTextActions.length)
          else none
        else none
      else none
    match afterPattern with
    | some v => some v
    | none =>
    if recentActions.length ≥ 2 then
      let queryDomActions := (pyLastN recentActions 5).filter
        fun a => a.action = "query_dom"
      if queryDomActions.length ≥ 2 then
        let queries := queryDomActions.map fun a => pGetD a.parameters "query"
        let pageChanges := queryDomActions.map (·.page_changed)
        let normalizedQueries := (queries.filter (· ≠ "")).map normalizeQuery
        if normalizedQueries.length ≥ 2 then
          let similarPairs := ((indexPairs normalizedQueries.length).filter fun ij =>
            let qi := normalizedQueries.getD ij.1 ""
            let qj := normalizedQueries.getD ij.2 ""
            qi = qj || areQueriesSimilar qi qj).length
          if similarPairs ≥ 1 && !pageChanges.any id then
            some (.queryDomRepeat
              ("Повторяющийся query_dom с похожими вопросами без изменения страницы ("
                ++ toString queryDomActions.length ++ " раза): " ++
                pyTake ((queries.getLast?).getD "") 100)
              "query_dom с похожими вопросами повторяется без результата"
              ((queries.getLast?).getD "") queryDomActions.length)
          else none
        else none
      else none
    else none

/-- A successful, page-preserving action record with the given name and
parameters: the shape of history entries in the cycle-monotonicity claim
(identical action, identical parameters, successful result, no page diff). -/
def mkRec (a : String) (p : Params) : ActionRec :=
  { action := a, parameters := p,
    result := { success := true, error := none, url := none },
    page_changed := false, new_elements := {} }

/-- The repeat count at which `detect_loop` first flags a history of
identical no-diff records of the given action: 2 for the critical classes,
2 for the dedicated `extract_text` / `query_dom` checks, 3 otherwise. -/
def effThreshold (a : String) (p : Params) : Nat :=
  if isCriticalAction a then 2
  else if a = "extract_text" ∧ pGetD p "description" ≠ "" then 2
  else if a = "query_dom" ∧ pGetD p "query" ≠ "" then 2
  else 3

/-- Outcome of the `query_dom` pre-check of `MainAgent.execute_task`
(lines 294–303): a repeated query is logged together with its previous
answer, and the action is executed regardless ("Все равно выполняем
действие"). -/
structure QueryPrecheck where
  executes : Bool
  warned : Bool
  previous_answer : Option String
deriving DecidableEq, Repr

/-- The `query_dom` duplicate pre-check step of `MainAgent.execute_task`. -/
def queryDomPrecheckStep (queryHistory : List QueryRec)
    (query currentUrl : String) : QueryPrecheck :=
  if query ≠ "" ∧ wasQueryAsked queryHistory query currentUrl then
    { executes := true, warned := true,
      previous_answer := getQueryAnswer queryHistory query currentUrl }
  else
    { executes := true, warned := false, previous_answer := none }

/-! ## `context/manager.py` — task requirements and completion gating -/

/-- A requirement / progress map, `name → count` (Python dict / `Counter`). -/
abbrev CountMap := List (String × Nat)

/-- Python `d.get(k, 0)` on a counter. -/
def cmGet (m : CountMap) (k : String) : Nat :=
  ((m.find? (fun kv => kv.1 = k)).map (·.2)).getD 0

/-- Python `d[k] = v`: update in place, or append a new key. -/
def cmSet (m : CountMap) (k : String) (v : Nat) : CountMap :=
  if m.any (fun kv => kv.1 = k) then
    m.map (fun kv => if kv.1 = k then (k, v) else kv)
  else m.concat (k, v)

/-- Whitespace for the regex class `\s` of `_parse_task_requirements`. -/
def pyIsSpaceRe (c : Char) : Bool :=
  c = ' ' ∨ c = '\t' ∨ c = '\n' ∨ c = '\r' ∨ c = '\x0c' ∨ c = '\x0b'

/-- Numeric value of a digit run (`int(match.group(1))`). -/
def digitsToNat (l : List Char) : Nat :=
  l.foldl (fun acc c => acc * 10 + (c.toNat - 48)) 0

/-- The character class `[^\n\r\.;,]` of the requirement regex. -/
def reqWindowChar (c : Char) : Bool :=
  ¬(c = '\n' ∨ c = '\r' ∨ c = '.' ∨ c = ';' ∨ c = ',')

/-- `re.finditer(r'(\d+)\s+([^\n\r\.;,]*)', task_lower)`: all matches of the
requirement regex as (number, tail-window) pairs, left to right,
non-overlapping. -/
def parseReqScanF : Nat → List Char → List (Nat × String)
  | 0, _ => []
  | _, [] => []
  | fuel + 1, c :: rest =>
    if c.isDigit then
      let digits := (c :: rest).takeWhile Char.isDigit
      let afterDigits := (c :: rest).dropWhile Char.isDigit
      if (afterDigits.takeWhile pyIsSpaceRe) = [] then parseReqScanF fuel rest
      else
        let afterWs := afterDigits.dropWhile pyIsSpaceRe
        let grp2 := afterWs.takeWhile reqWindowChar
        (digitsToNat digits, String.mk grp2) ::
          parseReqScanF fuel (afterWs.drop grp2.length)
    else parseReqScanF fuel rest

/-- The regex scan on a character list; each step of `parseReqScanF`
consumes at least one character, so the list length is sufficient fuel. -/
def parseReqScan (l : List Char) : List (Nat × String) :=
  parseReqScanF l.length l

/-- `ContextManager._parse_task_requirements`. -/
def parseTaskRequirements (task : String) : CountMap :=
  let windowSize := 50
  (parseReqScan (pyLower task).data).foldl
    (fun requirements m =>
      let window := pyTake m.2 windowSize
      if ["ваканс", "отклик", "respond", "apply"].any
          (fun kw => sContains window kw) then
        cmSet requirements "applications"
          (max (cmGet requirements "applications") m.1)
      else requirements)
    []

/-- The requirement-tracking slice of `ContextManager`'s state. -/
structure ReqState where
  requirements : CountMap := []
  progress_counters : CountMap := []
deriving Repr

/-- `ContextManager.update_progress`: the body is `pass` — it changes
nothing (decision, result and outcome analysis are ignored). -/
def updateProgress (st : ReqState) (_decision : String × Params)
    (_actionResult : ActionRes) (_outcomeAnalysis : Option String) : ReqState :=
  st

/-- `ContextManager.can_complete_task`. -/
def canCompleteTask (st : ReqState) : Bool :=
  st.requirements.all fun kv => cmGet st.progress_counters kv.1 ≥ kv.2

/-- `ContextManager.get_pending_requirements_message`. -/
def getPendingRequirementsMessage (st : ReqState) : String :=
  let messages := st.requirements.filterMap fun kv =>
    let current := cmGet st.progress_counters kv.1
    if current < kv.2 then
      some ("нужно " ++ toString kv.2 ++ " " ++ kv.1 ++ ", выполнено " ++
        toString current)
    else none
  String.intercalate "; " messages

/-- Outcome of the `task_complete` branch of `MainAgent.execute_task`:
either the completion is rejected (history records the rejection and the
loop continues) or the session ends `Completed`. -/
inductive CompleteOutcome where
  | rejectedRequirements (reason : String)
  | rejectedDeepCheck (message : String)
  | completed (summary : String)
deriving DecidableEq, Repr

/-- The `task_complete` gate of `MainAgent.execute_task`: quantitative
requirements first; then the oracle-backed deep completion check
(`check_task_completion`), whose verdict — or failure, treated as a pass —
is the `deepCheck` parameter. -/
def taskCompleteGate (st : ReqState) (deepCheck : Except Unit (Bool × String))
    (summary : String) : CompleteOutcome :=
  if ¬ canCompleteTask st then
    let reason :=
      if getPendingRequirementsMessage st ≠ "" then getPendingRequirementsMessage st
      else "Требования задачи не выполнены"
    .rejectedRequirements reason
  else
    match deepCheck with
    | .ok (false, msg) => .rejectedDeepCheck msg
    | .ok (true, _) => .completed summary
    | .error _ => .completed summary

/-! ## `agent/action_validator.py` — tiered validation -/

/-- The result fields read by `_heuristic_validation` and the cache key. -/
structure ValActionResult where
  success : Bool
  error : Option String := none
  page_changed : Bool := false
  new_modals : Bool := false
  new_forms : Bool := false
deriving DecidableEq, Repr

/-- A validation verdict as returned by `validate_action_result`. -/
structure ValidationVerdict where
  is_valid : Bool
  expected_outcome : String := ""
  actual_outcome : String := ""
  validation_message : String := ""
  suggestions : List String := []
  from_cache : Bool := false
  heuristic : Bool := false
deriving DecidableEq, Repr

/-- `ActionResultValidator.CRITICAL_ACTIONS` membership. -/
def isCriticalValidation (action : String) : Bool :=
  action = "navigate" || action = "click_element" || action = "type_text"

/-- `ActionResultValidator._heuristic_validation` (tier 1). -/
def heuristicValidation (action : String) (ar : ValActionResult) :
    Option (Bool × String × List String) :=
  if ¬ ar.success then
    some (false,
      "Действие завершилось ошибкой: " ++ (ar.error.getD "Unknown error"),
      ["Проверьте селектор элемента", "Попробуйте другой подход"])
  else if action = "navigate" ∧ ¬ ar.page_changed then
    some (false, "Навигация не привела к изменению страницы",
      ["Проверьте URL", "Подождите загрузки страницы"])
  else if action = "click_element" ∧ ¬ ar.page_changed ∧ ¬ ar.new_modals ∧
      ¬ ar.new_forms then
    some (false,
      "Клик не привел к изменению страницы или появлению новых элементов",
      ["Проверьте селектор элемента", "Элемент может быть не кликабельным",
       "Попробуйте другой элемент"])
  else if action = "type_text" then
    -- at this point `ar.success` holds, so the source returns the valid verdict
    some (true, "Текст успешно введен в поле", [])
  else none

/-- `ActionResultValidator.validate_action_result`: tier 1 heuristics, then
the cache, then the oracle-backed tier (abstracted as the `oracleVerdict`
parameter; `cacheLookup` abstracts `_validation_cache[_get_cache_key(...)]`). -/
def validateActionResult (cacheLookup : Option ValidationVerdict)
    (oracleVerdict : Unit → ValidationVerdict) (action : String)
    (ar : ValActionResult) : ValidationVerdict :=
  match heuristicValidation action ar with
  | some h =>
    { is_valid := h.1, validation_message := h.2.1, suggestions := h.2.2,
      from_cache := false, heuristic := true }
  | none =>
    match cacheLookup with
    | some cached => { cached with from_cache := true }
    | none =>
      if ¬ isCriticalValidation action then
        { is_valid := true, validation_message := "Действие выполнено успешно",
          suggestions := [], from_cache := false, heuristic := false }
      else oracleVerdict ()

/-! ## `error/error_handler.py` — tiered error classification -/

/-- A (suggestion, strategy) pair as produced by the error tiers. -/
structure ErrStrat where
  suggestion : String
  strategy : String
deriving DecidableEq, Repr

/-- `ErrorHandler._heuristic_error_handling` (the fast keyword table). -/
def heuristicErrorHandling (errorMessage action : String) : Option ErrStrat :=
  let el := pyLower errorMessage
  let notFound : Option ErrStrat :=
    if sContains el "not found" || sContains el "не найден" ||
        sContains el "element not found" then
      if action = "click_element" then
        some ⟨"Элемент не найден на странице. Используйте query_dom для поиска элемента с правильным селектором, прокрутите страницу или попробуйте альтернативное описание элемента.", "scroll"⟩
      else if action = "extract_text" then
        some ⟨"Элемент не найден. КРИТИЧЕСКИ ВАЖНО: НЕ ПОВТОРЯЙ extract_text с тем же описанием! Прокрутите страницу, используйте другое описание или переходите к следующему шагу задачи.", "scroll"⟩
      else if action = "type_text" then
        some ⟨"Поле ввода не найдено. Используйте query_dom для поиска поля с правильным селектором или проверьте, открыта ли форма.", "alternative"⟩
      else none
    else none
  match notFound with
  | some r => some r
  | none =>
    if sContains el "timeout" || sContains el "таймаут" ||
        sContains el "timed out" then
      some ⟨"Превышен таймаут ожидания. Страница может загружаться медленно или элемент появляется с задержкой. Подождите загрузки страницы и попробуйте снова.", "wait"⟩
    else if sContains el "not visible" || sContains el "не виден" ||
        sContains el "is not visible" then
      some ⟨"Элемент не виден на экране. Прокрутите страницу до элемента, закройте перекрывающие модальные окна или подождите его появления.", "scroll_to_element"⟩
    else if sContains el "disabled" || sContains el "отключен" ||
        sContains el "is disabled" then
      some ⟨"Элемент отключен и недоступен для взаимодействия. Попробуйте другой элемент, выполните необходимые действия для активации или подождите активации элемента.", "wait"⟩
    else if sContains el "intercepted" || sContains el "перекрыт" ||
        sContains el "obscured" || sContains el "is not clickable" then
      some ⟨"Элемент перекрыт другим элементом (модальное окно, баннер, overlay). Закройте перекрывающие элементы или прокрутите страницу, чтобы элемент стал доступен.", "close_modals"⟩
    else if sContains el "invalid selector" || sContains el "неверный селектор" ||
        sContains el "malformed" then
      some ⟨"Неверный селектор элемента. Используйте query_dom для получения правильного селектора элемента или используйте описание элемента вместо селектора.", "alternative_description"⟩
    else if sContains el "page not loaded" ||
        sContains el "страница не загружена" || sContains el "navigation" then
      some ⟨"Страница еще не загрузилась полностью. Подождите завершения загрузки страницы и попробуйте снова.", "wait"⟩
    else if sContains el "out of viewport" ||
        sContains el "вне области видимости" || sContains el "not in viewport" then
      some ⟨"Элемент находится вне области видимости. Прокрутите страницу до элемента или используйте scroll_to_element.", "scroll_to_element"⟩
    else if sContains el "network" || sContains el "сеть" ||
        sContains el "connection" then
      some ⟨"Ошибка сети при загрузке страницы. Проверьте подключение к интернету и попробуйте снова через несколько секунд.", "wait"⟩
    else if sContains el "javascript" || sContains el "js error" ||
        sContains el "script error" then
      some ⟨"Ошибка JavaScript на странице. Попробуйте другой подход или обновите страницу через navigate.", "alternative"⟩
    else if sContains el "detached" || sContains el "stale" ||
        sContains el "удален" then
      some ⟨"Элемент был удален из DOM или страница изменилась. Обновите контекст страницы через query_dom и попробуйте найти элемент снова.", "alternative"⟩
    else none

/-- The result dictionary of `ErrorHandler.handle_error`. -/
inductive HandleErrorResult where
  /-- returned when `retry_count >= max_retries`; carries no strategy. -/
  | retriesExceeded (error suggestion : String)
  /-- the advisory result with its tier of origin recorded by the
  embedding: 1 = heuristic keyword table, 2 = pattern table, 3 = cache,
  4 = oracle analysis. -/
  | advice (error suggestion : String) (strategy : Option String)
      (should_retry : Bool) (retry_count : Nat) (tier : Nat)
deriving DecidableEq, Repr

/-- `ErrorHandler.handle_error`: heuristics, then the pattern table
(`ErrorPatternMatcher.get_solution`, abstracted as `patternSolution`), then
the keyed solution cache (`cacheLookup`), then oracle analysis
(`aiSuggestion` plus `_extract_strategy_from_suggestion`, abstracted as
`aiResult`).  `maxRetries` is 3 in the source. -/
def handleError (patternSolution : Option ErrStrat)
    (cacheLookup : Option ErrStrat) (aiResult : ErrStrat)
    (error action : String) (retryCount : Nat) (maxRetries : Nat := 3) :
    HandleErrorResult :=
  if retryCount ≥ maxRetries then
    .retriesExceeded error "Превышен лимит попыток. Требуется помощь пользователя."
  else
    match heuristicErrorHandling error action with
    | some h => .advice error h.suggestion (some h.strategy)
        (retryCount < maxRetries) (retryCount + 1) 1
    | none =>
      match patternSolution with
      | some p =>
        let suggestion :=
          if action = "extract_text" then
            p.suggestion ++ " ВАЖНО: НЕ ПОВТОРЯЙ extract_text с тем же описанием! Используй альтернативные стратегии."
          else p.suggestion
        .advice error suggestion (some p.strategy) (retryCount < maxRetries)
          (retryCount + 1) 2
      | none =>
        match cacheLookup with
        | some c => .advice error c.suggestion (some c.strategy)
            (retryCount < maxRetries) (retryCount + 1) 3
        | none => .advice error aiResult.suggestion (some aiResult.strategy)
            (retryCount < maxRetries) (retryCount + 1) 4

/-! ## `context/token_optimizer.py` and `context/extractor.py` — data model

The tokenizer (`tiktoken`) is external: it enters as parameters
`enc : String → List Nat` (encode) and `dec : List Nat → String` (decode);
`count_tokens` is the length of the encoding.  The source's two float
expressions (`int(max_tokens * 0.2)`, `int(available_tokens * 0.7)`, the
ratio test `reduction_factor > 0.8` and `int(len * reduction_factor)`) are
embedded as the exact truncated integer computations they implement; for
the integer magnitudes reachable here the float and exact values agree. -/

/-- Python `str(x)` of an optional string value (`None` prints `None`). -/
def pyReprOptStr : Option String → String
  | none => "None"
  | some s => pyReprStr s

/-- Python `str` of a bool inside a dict repr. -/
def pyReprBool (b : Bool) : String := if b then "True" else "False"

/-- Truncated (toward-zero) integer division, as Python `int(a / b)` on the
exact quotient. -/
def pyIntDiv (a b : Int) : Int := Int.tdiv a b

/-- An interactive element of the extracted page model
(`page_info["interactive_elements"]` entries; dict keys become `Option` /
`Bool` fields, `has_data_attr` stands for the presence of a `data_*` key). -/
structure El where
  type_ : Option String := none
  selector : Option String := none
  text : Option String := none
  href : Option String := none
  id : Option String := none
  input_type : Option String := none
  placeholder : Option String := none
  in_modal : Bool := false
  in_form : Bool := false
  visible : Option Bool := none
  in_main_content : Bool := false
  in_footer_header : Bool := false
  has_data_attr : Bool := false
  relevance_score : Option Int := none
deriving DecidableEq, Repr

/-- The compact element dictionary built by
`TokenOptimizer._optimize_elements`; key insertion order is
`type, selector, in_modal?, in_form?, text?, relevance_score?, href?, id?,
input_type?, placeholder?` and a `none` optional field is an absent key. -/
structure CompactEl where
  type_ : Option String := none
  selector : Option String := none
  in_modal : Bool := false
  in_form : Bool := false
  text : Option String := none
  relevance_score : Option Int := none
  href : Option String := none
  id : Option String := none
  input_type : Option String := none
  placeholder : Option String := none
deriving DecidableEq, Repr

/-- The key/value entries of a compact element's dict, in insertion order. -/
def compactEntries (e : CompactEl) : List (String × String) :=
  [("'type'", pyReprOptStr e.type_), ("'selector'", pyReprOptStr e.selector)] ++
  (if e.in_modal then [("'in_modal'", "True")] else []) ++
  (if e.in_form then [("'in_form'", "True")] else []) ++
  (match e.text with | some t => [("'text'", pyReprStr t)] | none => []) ++
  (match e.relevance_score with
   | some r => [("'relevance_score'", toString r)] | none => []) ++
  (match e.href with | some h => [("'href'", pyReprStr h)] | none => []) ++
  (match e.id with | some i => [("'id'", pyReprStr i)] | none => []) ++
  (match e.input_type with | some i => [("'input_type'", pyReprStr i)] | none => []) ++
  (match e.placeholder with | some p => [("'placeholder'", pyReprStr p)] | none => [])

/-- Python `str(compact_element)` (dict repr). -/
def compactRepr (e : CompactEl) : String :=
  "\x7b" ++
    String.intercalate ", " ((compactEntries e).map fun kv => kv.1 ++ ": " ++ kv.2) ++
  "\x7d"

/-- Python `str` of a list of compact elements. -/
def compactListRepr (l : List CompactEl) : String :=
  "[" ++ String.intercalate ", " (l.map compactRepr) ++ "]"

/-- Insert `x` into a descending-ordered list, after all entries whose key
is not smaller: one insertion step of the stable descending sort that
embeds Python's `sort(key=…, reverse=True)`. -/
def insDesc (ltK : α → α → Bool) (x : α) : List α → List α
  | [] => [x]
  | y :: ys => if ltK y x then x :: y :: ys else y :: insDesc ltK x ys

/-- Stable descending sort (Python `sorted(l, key=…, reverse=True)` /
`l.sort(key=…, reverse=True)`): equal keys keep their original order. -/
def sortD (ltK : α → α → Bool) (l : List α) : List α :=
  l.foldl (fun acc x => insDesc ltK x acc) []

/-- Lexicographic `<` on the 5-tuples produced by the `sort_key` of
`_optimize_elements` (`False < True` for booleans). -/
def bNat (b : Bool) : Nat := if b then 1 else 0

/-- Lexicographic comparison of `sort_key` tuples. -/
def tupLt (k1 k2 : Int × Bool × Bool × Bool × Bool) : Bool :=
  k1.1 < k2.1 ∨ (k1.1 = k2.1 ∧
    (bNat k1.2.1 < bNat k2.2.1 ∨ (k1.2.1 = k2.2.1 ∧
      (bNat k1.2.2.1 < bNat k2.2.2.1 ∨ (k1.2.2.1 = k2.2.2.1 ∧
        (bNat k1.2.2.2.1 < bNat k2.2.2.2.1 ∨ (k1.2.2.2.1 = k2.2.2.2.1 ∧
          bNat k1.2.2.2.2 < bNat k2.2.2.2.2)))))))

/-- The `sort_key` closure of `_optimize_elements`: relevance score plus
the task-type boost, then modal membership, form membership, presence of an
id, presence of text. -/
def sortKeyEl (taskType : Option String) (x : El) : Int × Bool × Bool × Bool × Bool :=
  let relevanceScore := x.relevance_score.getD 0
  let relevanceScore :=
    if taskType = some "form" then
      relevanceScore + (if x.in_form ||
        x.type_ ∈ [some "button", some "input", some "select", some "textarea"]
        then (20 : Int) else 0)
    else if taskType = some "navigation" then
      relevanceScore + (if x.type_ ∈ [some "link", some "button"] ||
        optTruthy x.href then (15 : Int) else 0)
    else if taskType = some "reading" then
      relevanceScore + (if optTruthy x.text ∧ (x.text.getD "").length > 50
        then (10 : Int) else 0)
    else relevanceScore
  (relevanceScore, x.in_modal, x.in_form, optTruthy x.id, optTruthy x.text)

/-- The token-count cache of `TokenOptimizer` (`_token_count_cache`), in
insertion order. -/
abbrev TokCache := List (String × Nat)

/-- A cache is consistent when every stored count is the count the
tokenizer would produce. -/
def CacheConsistent (enc : String → List Nat) (cache : TokCache) : Prop :=
  ∀ kv ∈ cache, kv.2 = (enc kv.1).length

/-- `TokenOptimizer.count_tokens`: cached token counting (strings up to 500
characters are cached; the cache keeps the last 1000 entries, evicting the
oldest). -/
def countTokensC (enc : String → List Nat) (cache : TokCache) (s : String) :
    Nat × TokCache :=
  if s.length ≤ 500 then
    match (cache.find? (fun kv => kv.1 = s)).map (·.2) with
    | some n => (n, cache)
    | none =>
      let n := (enc s).length
      let cache1 := cache.concat (s, n)
      (n, if cache1.length > 1000 then cache1.drop 1 else cache1)
  else ((enc s).length, cache)

/-- `TokenOptimizer._truncate_text` (direct `encode`/`decode`, no cache). -/
def truncateText (enc : String → List Nat) (dec : List Nat → String)
    (text : String) (maxTokens : Nat) : String :=
  if text = "" then ""
  else
    let tokens := enc text
    if tokens.length ≤ maxTokens then text
    else dec (tokens.take maxTokens)

/-- The per-element text limit table of `_optimize_elements`, as a function
of the task type, modal/form/priority flags and the remaining budget. -/
def elementTextLimit (taskType : Option String) (isInModal isInForm isHighPriority : Bool)
    (remainingTokens : Int) : Nat :=
  if taskType = some "form" then
    if isInModal ∧ remainingTokens > 200 then 120
    else if isInModal then 80
    else if isInForm ∧ remainingTokens > 200 then 80
    else if isHighPriority ∧ remainingTokens > 200 then 60
    else if isHighPriority ∧ remainingTokens > 100 then 40
    else 20
  else if taskType = some "navigation" then
    if isInModal ∧ remainingTokens > 200 then 80
    else if isInModal then 60
    else if isHighPriority ∧ remainingTokens > 200 then 50
    else 30
  else
    if isInModal ∧ remainingTokens > 200 then 100
    else if isInModal then 70
    else if isInForm ∧ remainingTokens > 200 then 70
    else if isHighPriority ∧ remainingTokens > 200 then 60
    else if isHighPriority ∧ remainingTokens > 100 then 40
    else if remainingTokens > 50 then 25
    else 15

/-- `_optimize_elements`, per-element flags: `is_high_priority`. -/
def elIsHighPriority (element : El) : Bool :=
  element.in_modal || element.in_form || (element.relevance_score.getD 0) > 10 ||
    optTruthy element.id || element.type_ ∈ [some "button", some "link"]

/-- The compact element built for one element of `_optimize_elements`,
before the high-priority shrink path. -/
def buildCompact (taskType : Option String) (remainingTokens : Int)
    (element : El) : CompactEl :=
  let textLimit := elementTextLimit taskType element.in_modal element.in_form
    (elIsHighPriority element) remainingTokens
  let compact : CompactEl :=
    { type_ := element.type_, selector := element.selector,
      in_modal := element.in_modal, in_form := element.in_form,
      text := if optTruthy element.text then
          some (pyTake (element.text.getD "") textLimit) else none,
      relevance_score := element.relevance_score }
  if remainingTokens > 100 then
    { compact with
      href := if optTruthy element.href then element.href else none,
      id := if optTruthy element.id then element.id else none,
      input_type := if optTruthy element.input_type then element.input_type else none,
      placeholder := if optTruthy element.placeholder then element.placeholder else none }
  else if remainingTokens > 50 then
    { compact with
      href := if optTruthy element.href then element.href else none,
      id := if optTruthy element.id then element.id else none }
  else
    { compact with id := if optTruthy element.id then element.id else none }

/-- The high-priority shrink path of `_optimize_elements` (drop lesser
fields, cut the text to 20 characters). -/
def shrinkCompact (remainingTokens : Int) (compact : CompactEl) : CompactEl :=
  let compact :=
    if compact.href.isSome ∧ remainingTokens < 50 then { compact with href := none }
    else compact
  let compact := { compact with placeholder := none }
  let compact :=
    if compact.input_type.isSome ∧ remainingTokens < 30 then
      { compact with input_type := none }
    else compact
  match compact.text with
  | some t => { compact with text := some (pyTake t 20) }
  | none => compact

/-- The body of the element loop of `_optimize_elements` for one element:
given the accumulator (kept elements, running token total, cache), process
`element` and return the new accumulator. -/
def optimizeElementStep (enc : String → List Nat) (maxTokens : Int)
    (taskType : Option String) (optimized : List CompactEl)
    (currentTokens : Int) (cache : TokCache) (element : El) :
    List CompactEl × Int × TokCache :=
  let relevanceScore := element.relevance_score.getD 0
  let remainingTokens := maxTokens - currentTokens
  let compact := buildCompact taskType remainingTokens element
  let r1 := countTokensC enc cache (compactRepr compact)
  if currentTokens + r1.1 ≤ maxTokens then
    (optimized.concat compact, currentTokens + r1.1, r1.2)
  else if elIsHighPriority element then
    let compact2 := shrinkCompact remainingTokens compact
    let r2 := countTokensC enc r1.2 (compactRepr compact2)
    if currentTokens + r2.1 ≤ maxTokens then
      (optimized.concat compact2, currentTokens + r2.1, r2.2)
    else if element.in_modal then
      (optimized.concat compact2, currentTokens + r2.1, r2.2)
    else if element.in_form ∧ relevanceScore ≥ 5 then
      (optimized.concat compact2, currentTokens + r2.1, r2.2)
    else if relevanceScore ≥ 5 then
      (optimized.concat compact2, currentTokens + r2.1, r2.2)
    else (optimized, currentTokens, r2.2)
  else (optimized, currentTokens, r1.2)

/-- `TokenOptimizer._optimize_elements`: group (modal / form / other),
stable-sort each group descending by `sort_key`, then greedily keep
elements within the budget, shrinking or force-keeping high-priority ones. -/
def optimizeElements (enc : String → List Nat) (cache : TokCache)
    (elements : List El) (maxTokens : Int) (taskType : Option String) :
    List CompactEl × TokCache :=
  if elements = [] then ([], cache)
  else
    let modalElements := elements.filter (·.in_modal)
    let formElements := elements.filter fun e => e.in_form ∧ ¬ e.in_modal
    let otherElements := elements.filter fun e => ¬ e.in_modal ∧ ¬ e.in_form
    let ltK := fun x y => tupLt (sortKeyEl taskType x) (sortKeyEl taskType y)
    let sortedElements :=
      sortD ltK modalElements ++ sortD ltK formElements ++ sortD ltK otherElements
    let r :=
      sortedElements.foldl
        (fun acc element =>
          optimizeElementStep enc maxTokens taskType acc.1 acc.2.1 acc.2.2 element)
        ([], 0, cache)
    (r.1, r.2.2)

/-! ## Page-model structures for `optimize_page_info` / `prepare_context` -/

/-- A breadcrumb entry of `location_context.structure.breadcrumbs`. -/
structure CrumbIn where
  text : Option String := none
  href : Option String := none
deriving DecidableEq, Repr

/-- `location_context.structure.current_section`. -/
structure SectionIn where
  type_ : Option String := none
  text_preview : Option String := none
deriving DecidableEq, Repr

/-- A modal dictionary (`page_state.modals` and
`location_context.structure.visible_modals` entries). -/
structure ModalIn where
  has_form : Bool := false
  input_count : Nat := 0
  selector : Option String := none
  z_index : Int := 0
deriving DecidableEq, Repr

/-- `location_context.structure`. -/
structure LocStructure where
  breadcrumbs : List CrumbIn := []
  current_section : Option SectionIn := none
  visible_modals : List ModalIn := []
deriving DecidableEq, Repr

/-- `page_info["location_context"]`. -/
structure LocCtx where
  description : Option String := none
  visible_modals_count : Nat := 0
  has_forms : Bool := false
  structure_ : Option LocStructure := none
deriving DecidableEq, Repr

/-- `page_info["visible_modals"]`. -/
structure VisModalsIn where
  count : Nat := 0
  modals : List ModalIn := []
deriving DecidableEq, Repr

/-- `page_info["metadata"]["page_state"]` (`get_page_state_hash`). -/
structure PageState where
  dom_hash : String := ""
  interactive_count : Nat := 0
  visible_modal_count : Nat := 0
  visible_form_count : Nat := 0
  modals : List ModalIn := []
deriving DecidableEq, Repr

/-- The page model handed to `prepare_context`
(`extract_page_info` plus the metadata added by `execute_task`). -/
structure PageInfo where
  url : String := ""
  title : String := ""
  interactive_elements : List El := []
  visible_text_preview : String := ""
  location_context : Option LocCtx := none
  visible_modals : Option VisModalsIn := none
  page_state : Option PageState := none
deriving Repr

/-- The optimized breadcrumb built by `optimize_page_info`. -/
structure CrumbOut where
  text : String
  href : String
deriving DecidableEq, Repr

/-- The optimized current-section dict. -/
structure SectionOut where
  type_ : String
  text_preview : String
deriving DecidableEq, Repr

/-- The optimized modal dict (the three retained keys). -/
structure ModalOut where
  has_form : Bool
  input_count : Nat
  selector : String
deriving DecidableEq, Repr

/-- The optimized `location_context.structure` dict; a `none` field is an
absent key. -/
structure OptStructure where
  breadcrumbs : Option (List CrumbOut) := none
  current_section : Option SectionOut := none
  visible_modals : Option (List ModalOut) := none
deriving DecidableEq, Repr

/-- The optimized `location_context` dict. -/
structure OptLoc where
  description : String
  visible_modals_count : Nat
  has_forms : Bool
  structure_ : Option OptStructure := none
deriving DecidableEq, Repr

/-- The optimized `visible_modals` dict. -/
structure OptVisModals where
  count : Nat
  modals : List ModalOut
deriving DecidableEq, Repr

/-- The `location_context` key of the working page dict: first the
optimized dict from `optimize_page_info`, later overwritten by
`prepare_context` with the raw `location_context` of the page model. -/
inductive LocVal where
  | opt (o : OptLoc)
  | raw (r : LocCtx)
deriving Repr

/-- The `active_modal_context` dict set by `prepare_context`. -/
structure ActiveModalCtx where
  has_active_modal : Bool
  has_form : Bool := false
  input_count : Nat := 0
  selector : String := ""
deriving DecidableEq, Repr

/-- The working "optimized page info" dictionary as it evolves through
`optimize_page_info` and `prepare_context`. -/
structure OptPI where
  url : String
  title : String
  interactive_elements : List CompactEl
  visible_text_preview : String
  location_context : Option LocVal := none
  visible_modals : Option OptVisModals := none
  visible_modals2 : Option (Nat × List ModalIn) := none
  active_modal_context : Option ActiveModalCtx := none
  completed_steps : List String := []
  extracted_info : List (String × String) := []
  requirements_status : Option String := none
deriving Repr

/-! Python `str(...)` representations of the optimized location/modal
dictionaries, needed because `optimize_page_info` token-counts them. -/

/-- Repr of an optimized breadcrumb dict. -/
def crumbOutRepr (b : CrumbOut) : String :=
  "\x7b'text': " ++ pyReprStr b.text ++ ", 'href': " ++ pyReprStr b.href ++ "\x7d"

/-- Repr of the optimized current-section dict. -/
def sectionOutRepr (s : SectionOut) : String :=
  "\x7b'type': " ++ pyReprStr s.type_ ++ ", 'text_preview': " ++
    pyReprStr s.text_preview ++ "\x7d"

/-- Repr of an optimized modal dict. -/
def modalOutRepr (m : ModalOut) : String :=
  "\x7b'has_form': " ++ pyReprBool m.has_form ++ ", 'input_count': " ++
    toString m.input_count ++ ", 'selector': " ++ pyReprStr m.selector ++ "\x7d"

/-- Repr of a Python list given the reprs of its entries. -/
def pyListRepr (entries : List String) : String :=
  "[" ++ String.intercalate ", " entries ++ "]"

/-- Repr of the optimized `structure` dict (keys in insertion order). -/
def optStructureRepr (s : OptStructure) : String :=
  let entries :=
    (match s.breadcrumbs with
     | some bs => [("'breadcrumbs'", pyListRepr (bs.map crumbOutRepr))]
     | none => []) ++
    (match s.current_section with
     | some cs => [("'current_section'", sectionOutRepr cs)]
     | none => []) ++
    (match s.visible_modals with
     | some ms => [("'visible_modals'", pyListRepr (ms.map modalOutRepr))]
     | none => [])
  "\x7b" ++ String.intercalate ", " (entries.map fun kv => kv.1 ++ ": " ++ kv.2) ++ "\x7d"

/-- Repr of the optimized `location_context` dict
(`str(optimized.get("location_context", {}))`). -/
def optLocRepr : Option LocVal → String
  | some (.opt o) =>
    "\x7b'description': " ++ pyReprStr o.description ++
    ", 'visible_modals_count': " ++ toString o.visible_modals_count ++
    ", 'has_forms': " ++ pyReprBool o.has_forms ++
    (match o.structure_ with
     | some s => ", 'structure': " ++ optStructureRepr s
     | none => "") ++ "\x7d"
  | _ => "\x7b\x7d"

/-- Repr of the optimized `visible_modals` dict
(`str(optimized.get("visible_modals", {}))`). -/
def optVisModalsRepr : Option OptVisModals → String
  | some v =>
    "\x7b'count': " ++ toString v.count ++ ", 'modals': " ++
      pyListRepr (v.modals.map modalOutRepr) ++ "\x7d"
  | none => "\x7b\x7d"

/-- The first modal with a form, else the first modal
(the `important_modal` selection of `optimize_page_info`). -/
def pickImportantModal (modals : List ModalIn) : Option ModalIn :=
  match modals.find? (·.has_form) with
  | some m => some m
  | none => modals.head?

/-- The three-key optimized modal dict built from a raw modal. -/
def modalOutOf (m : ModalIn) : ModalOut :=
  { has_form := m.has_form, input_count := m.input_count,
    selector := if optTruthy m.selector then pyTake (m.selector.getD "") 50 else "" }

/-- `TokenOptimizer.optimize_page_info`: reserve ~20 % of the budget, build
the optimized location/modal dictionaries, optimize elements with 70 % of
the remainder, truncate the text preview with what is left. -/
def optimizePageInfo (enc : String → List Nat) (dec : List Nat → String)
    (cache : TokCache) (pi : PageInfo) (maxTokens : Int)
    (taskType : Option String) : OptPI × TokCache :=
  let reservedTokens := max 500 (pyIntDiv (maxTokens * 2) 10)
  let availableTokens := maxTokens - reservedTokens
  let optimized : OptPI :=
    { url := pi.url, title := pi.title, interactive_elements := [],
      visible_text_preview := "" }
  let optimized :=
    match pi.location_context with
    | none => optimized
    | some lc =>
      let optimizedLocation : OptLoc :=
        { description := pyTake ((lc.description).getD "") 200,
          visible_modals_count := lc.visible_modals_count,
          has_forms := lc.has_forms }
      let optimizedLocation :=
        match lc.structure_ with
        | none => optimizedLocation
        | some st =>
          let os : OptStructure := {}
          let os :=
            if st.breadcrumbs ≠ [] then
              { os with breadcrumbs := some ((st.breadcrumbs.take 5).map
                  fun (b : CrumbIn) =>
                    ({ text := pyTake ((b.text).getD "") 50,
                       href := pyTake ((b.href).getD "") 100 } : CrumbOut)) }
            else os
          let os :=
            match st.current_section with
            | some cs =>
              { os with current_section := some (⟨(cs.type_).getD "",
                  pyTake ((cs.text_preview).getD "") 150⟩ : SectionOut) }
            | none => os
          let os :=
            if st.visible_modals ≠ [] then
              match pickImportantModal st.visible_modals with
              | some im => { os with visible_modals := some [modalOutOf im] }
              | none => os
            else os
          { optimizedLocation with structure_ := some os }
      { optimized with location_context := some (.opt optimizedLocation) }
  let optimized :=
    match pi.visible_modals with
    | none => optimized
    | some vm =>
      match pickImportantModal vm.modals with
      | some im =>
        let v : OptVisModals := { count := vm.count, modals := [modalOutOf im] }
        { optimized with visible_modals := some v }
      | none => optimized
  let elementsTokens := pyIntDiv (availableTokens * 7) 10
  let rE := optimizeElements enc cache pi.interactive_elements elementsTokens taskType
  let optimized := { optimized with interactive_elements := rE.1 }
  let rU := countTokensC enc rE.2 (compactListRepr rE.1)
  let rL :=
    match pi.location_context with
    | some _ =>
      let t := countTokensC enc rU.2 (optLocRepr optimized.location_context)
      ((rU.1 : Int) + t.1, t.2)
    | none => ((rU.1 : Int), rU.2)
  let rV :=
    match pi.visible_modals with
    | some _ =>
      let t := countTokensC enc rL.2 (optVisModalsRepr optimized.visible_modals)
      (rL.1 + (t.1 : Int), t.2)
    | none => rL
  let textTokens := max 100 (availableTokens - rV.1)
  let preview := truncateText enc dec pi.visible_text_preview textTokens.toNat
  let optimized := { optimized with visible_text_preview := preview }
  (optimized, rV.2)

/-! ## `context/extractor.py` — relevance extraction

`prepare_context` applies the extractor to the already-optimized (compact)
element dictionaries, so the embedding works on `CompactEl`; keys the
compact dicts never carry (`in_main_content`, `in_footer_header`,
`visible`, `data_*`) read as their Python defaults (absent, absent,
`True`, absent). -/

/-- `ContextExtractor.STOP_WORDS`. -/
def stopWords : List String :=
  ["и", "в", "на", "с", "по", "для", "от", "до", "из", "к", "о", "об", "со",
   "the", "a", "an", "and", "or", "in", "on", "at", "to", "for", "of", "with"]

/-- `ContextExtractor.TASK_KEYWORDS` (insertion order preserved). -/
def taskKeywordsTable : List (String × List String) :=
  [("navigation", ["найти", "найди", "открыть", "открой", "перейти", "перейди",
      "ссылка", "link", "find", "open", "go"]),
   ("form", ["форма", "заполнить", "заполни", "ввести", "введи", "поле",
      "field", "form", "fill", "input"]),
   ("extraction", ["прочитать", "прочитай", "извлечь", "извлеки",
      "найти информацию", "read", "extract", "get"]),
   ("action", ["кликнуть", "кликни", "нажать", "нажми", "click", "press",
      "button"])]

/-- A word character of the regex `\b\w+\b` for the alphabets in use. -/
def pyIsWordChar (c : Char) : Bool :=
  c.isAlpha || c.isDigit || c = '_' ||
    ('а' ≤ c ∧ c ≤ 'я') || ('А' ≤ c ∧ c ≤ 'Я') || c = 'ё' || c = 'Ё'

/-- Helper: maximal word-character runs of a character list. -/
def wordRunsAux : List Char → List Char → List String
  | [], [] => []
  | [], acc => [String.mk acc.reverse]
  | c :: cs, acc =>
    if pyIsWordChar c then wordRunsAux cs (c :: acc)
    else
      match acc with
      | [] => wordRunsAux cs []
      | _ => String.mk acc.reverse :: wordRunsAux cs []

/-- `re.findall(r'\b\w+\b', text)`: the maximal word-character runs. -/
def wordRuns (s : String) : List String := wordRunsAux s.data []

/-- `ContextExtractor._extract_keywords`. -/
def extractKeywords (text : String) : List String :=
  (wordRuns (pyLower text)).filter fun w => w.length > 2 ∧ w ∉ stopWords

/-- `ContextExtractor._detect_task_type`. -/
def detectTaskType (taskDescription : String) : Option String :=
  let taskLower := pyLower taskDescription
  (taskKeywordsTable.find? fun kv =>
    kv.2.any fun kw => sContains taskLower kw).map (·.1)

/-- `ContextExtractor._calculate_relevance_score` on a compact element. -/
def calculateRelevanceScore (element : CompactEl) (taskKeywords : List String)
    (taskType : Option String) : Int :=
  let elementText := pyLower (element.text.getD "")
  let elementHref := pyLower (element.href.getD "")
  let elementPlaceholder := pyLower (element.placeholder.getD "")
  let score : Int := taskKeywords.foldl
    (fun score keyword =>
      let score := if sContains elementText keyword then score + 3 else score
      let score := if sContains elementHref keyword then score + 2 else score
      let score := if sContains elementPlaceholder keyword then score + 2 else score
      if keyword.length > 3 ∧
          (sContains elementText keyword ∨ sContains keyword elementText) then
        score + 1
      else score)
    0
  let score :=
    match taskType with
    | some tt =>
      let taskKeywordsList := ((taskKeywordsTable.find? fun kv => kv.1 = tt).map
        (·.2)).getD []
      taskKeywordsList.foldl
        (fun score taskKw =>
          if sContains elementText taskKw then score + 2 else score) score
    | none => score
  let score := if optTruthy element.id then score + 1 else score
  -- compact dicts never carry `in_main_content` / `in_footer_header`, and
  -- `get("visible", True)` defaults to true for them:
  score + 1

/-- `ContextExtractor.extract_relevant_elements` on the optimized elements. -/
def extractRelevantElements (elements : List CompactEl)
    (taskDescription : String) : List CompactEl :=
  if elements = [] then []
  else
    let taskKeywords := extractKeywords taskDescription
    let taskType := detectTaskType taskDescription
    let scoredElements := elements.filterMap fun element =>
      let score := calculateRelevanceScore element taskKeywords taskType
      if score > 0 then some { element with relevance_score := some score }
      else none
    let scoredElements := sortD
      (fun x y => (x.relevance_score.getD 0) < (y.relevance_score.getD 0))
      scoredElements
    let scoredSelectors := scoredElements.map (·.selector)
    let importantElements := elements.filter fun element =>
      ¬ scoredSelectors.contains element.selector ∧ optTruthy element.id
    scoredElements ++
      (importantElements.filter fun e => ¬ scoredSelectors.contains e.selector).map
        fun e => { e with relevance_score := some 1 }

/-! ## `context/manager.py` — formatting and `prepare_context` -/

/-- One entry of `ContextManager.history` (`add_to_history`). -/
structure CtxHistRec where
  action : String
  success : Bool
  message : Option String := none
deriving DecidableEq, Repr

/-- The slice of `ContextManager`'s state read by `prepare_context`. -/
structure CtxMgrState where
  history : List CtxHistRec := []
  current_task : Option String := none
  extracted_info : List (String × String) := []
  completed_steps : List String := []
  requirements : CountMap := []
  progress_counters : CountMap := []
deriving Repr

/-- `ContextManager._build_requirements_status` / `get_requirements_status`. -/
def buildRequirementsStatus (st : CtxMgrState) : String :=
  String.intercalate "\n" (st.requirements.map fun kv =>
    kv.1 ++ ": " ++ toString (cmGet st.progress_counters kv.1) ++ "/" ++
      toString kv.2)

/-- The `description` read by `format_context` from the `location_context`
key (optimized or raw). -/
def locDescription : LocVal → String
  | .opt o => o.description
  | .raw r => (r.description).getD ""

/-- The breadcrumb texts read by `format_context`. -/
def locBreadTexts : LocVal → List String
  | .opt o =>
    match o.structure_ with
    | some s => ((s.breadcrumbs).getD []).map (·.text)
    | none => []
  | .raw r =>
    match r.structure_ with
    | some s => s.breadcrumbs.map fun b => (b.text).getD ""
    | none => []

/-- The printed `type` of an element (`elem.get('type', 'unknown')`; the
key is always present on compact dicts, a `None` value prints as `None`). -/
def elemTypeStr (e : CompactEl) : String := (e.type_).getD "None"

/-- Float formatting `f"{score:.1f}"` of an integer relevance score. -/
def fmtScore1 (r : Int) : String := toString r ++ ".0"

/-- One numbered line of the form-elements block of `format_context`. -/
def formElemDesc (i : Nat) (elem : CompactEl) : String :=
  let d := "  " ++ toString i ++ ". " ++ elemTypeStr elem
  let d := if optTruthy elem.text then d ++ " - '" ++ elem.text.getD "" ++ "'" else d
  let d := if optTruthy elem.selector then d ++ " (" ++ elem.selector.getD "" ++ ")" else d
  let d := if optTruthy elem.placeholder then
      d ++ " [placeholder: '" ++ elem.placeholder.getD "" ++ "']" else d
  match elem.relevance_score with
  | some r => d ++ " [релевантность: " ++ fmtScore1 r ++ "]"
  | none => d

/-- One numbered line of the other-elements block of `format_context`. -/
def otherElemDesc (i : Nat) (elem : CompactEl) : String :=
  let d := "  " ++ toString i ++ ". " ++ elemTypeStr elem
  let d := if optTruthy elem.text then d ++ " - '" ++ elem.text.getD "" ++ "'" else d
  let d := if optTruthy elem.selector then d ++ " (" ++ elem.selector.getD "" ++ ")" else d
  let d :=
    if optTruthy elem.href then
      let href := elem.href.getD ""
      let href := if href.length > 60 then pyTake href 57 ++ "..." else href
      d ++ " -> " ++ href
    else d
  match elem.relevance_score with
  | some r => d ++ " [релевантность: " ++ fmtScore1 r ++ "]"
  | none => d

/-- `TokenOptimizer.format_context`: serialize the working page dict and
the recent history into the context string sent to the oracle. -/
def formatContext (p : OptPI) (history : List CtxHistRec) : String :=
  let parts := ["Текущая страница: " ++ p.url, "Заголовок: " ++ p.title]
  let parts := parts ++
    (match p.location_context with
     | none => []
     | some lv =>
       let locationDesc := locDescription lv
       (if locationDesc ≠ "" then ["\n📍 Местоположение: " ++ locationDesc] else [])
       ++
       (let crumbTexts := locBreadTexts lv
        if crumbTexts ≠ [] then
          ["   Навигация: " ++ String.intercalate " > " crumbTexts]
        else []))
  let elements := p.interactive_elements
  let parts := parts ++
    (if elements ≠ [] then
      let formElements := elements.filter (·.in_form)
      let otherElements := elements.filter fun e => ¬ e.in_form
      ["\nДоступные элементы на странице (всего: " ++
        toString elements.length ++ "):"]
      ++
      (if formElements ≠ [] then
        "\n📝 ЭЛЕМЕНТЫ В ФОРМЕ:" ::
          (formElements.enum.map fun ie => formElemDesc (ie.1 + 1) ie.2)
      else [])
      ++
      (if otherElements ≠ [] then
        "\nОстальные элементы:" ::
          (otherElements.enum.map fun ie => otherElemDesc (ie.1 + 1) ie.2)
      else [])
    else [])
  let parts := parts ++
    (if p.visible_text_preview ≠ "" then
      ["\nВидимый текст на странице (фрагмент):\n" ++
        pyTake p.visible_text_preview 300]
    else [])
  let parts := parts ++
    (if p.completed_steps ≠ [] then
      "\n✓ Выполненные шаги задачи:" ::
        (p.completed_steps.enum.map fun is =>
          "  " ++ toString (is.1 + 1) ++ ". " ++ is.2)
    else [])
  let parts := parts ++
    (if p.extracted_info ≠ [] then
      "\n📄 Извлеченная информация (уже прочитано, НЕ извлекай повторно):" ::
        (p.extracted_info.map fun dv =>
          "  - " ++ dv.1 ++ ": " ++
            (pyTake dv.2 200 ++ (if dv.2.length > 200 then "..." else "")))
    else [])
  let parts := parts ++
    (match p.requirements_status with
     | some rs =>
       if rs ≠ "" then ["\n📌 Прогресс по требованиям задачи:\n" ++ rs] else []
     | none => [])
  let parts := parts ++
    (if history ≠ [] then
      "\nИстория последних действий:" ::
        ((pyLastN history 5).enum.flatMap fun ia =>
          let successMarker := if ia.2.success then "✓" else "✗"
          ["  " ++ toString (ia.1 + 1) ++ ". " ++ successMarker ++ " " ++
            ia.2.action] ++
          (if optTruthy ia.2.message then
            ["     → " ++ ia.2.message.getD ""]
          else []))
    else [])
  String.intercalate "\n" parts

/-- The task-type detection at the top of `prepare_context`. -/
def prepareTaskType (task : String) : Option String :=
  let taskLower := pyLower task
  if ["заполни", "введи", "форма", "fill", "form", "input"].any
      (fun kw => sContains taskLower kw) then some "form"
  else if ["найди", "перейди", "открой", "navigate", "go to", "find"].any
      (fun kw => sContains taskLower kw) then some "navigation"
  else if ["прочитай", "извлеки", "read", "extract"].any
      (fun kw => sContains taskLower kw) then some "reading"
  else none

/-- The sort key `(has_form, z_index)` (descending) used to pick the
active modal in `prepare_context`. -/
def modalKeyLt (m1 m2 : ModalIn) : Bool :=
  bNat m1.has_form < bNat m2.has_form ∨
    (m1.has_form = m2.has_form ∧ m1.z_index < m2.z_index)

/-- The assembly stage of `ContextManager.prepare_context` (everything up
to the first `format_context` call): optimize the page info, apply the
relevance extractor, and attach location, modal, progress and requirement
information. -/
def assembleOptPI (enc : String → List Nat) (dec : List Nat → String)
    (st : CtxMgrState) (cache : TokCache) (pi : PageInfo) (maxTokens : Int) :
    OptPI × TokCache :=
  let taskType :=
    if optTruthy st.current_task then prepareTaskType (st.current_task.getD "")
    else none
  let rP := optimizePageInfo enc dec cache pi maxTokens taskType
  let optimizedPI := rP.1
  let cache := rP.2
  let optimizedPI :=
    if optTruthy st.current_task then
      let relevantElements := extractRelevantElements
        optimizedPI.interactive_elements (st.current_task.getD "")
      if relevantElements ≠ [] then
        { optimizedPI with interactive_elements := relevantElements }
      else optimizedPI
    else optimizedPI
  let optimizedPI :=
    match pi.location_context with
    | some lc => { optimizedPI with location_context := some (.raw lc) }
    | none => optimizedPI
  let optimizedPI :=
    match pi.page_state with
    | some ps =>
      if ps.visible_modal_count > 0 then
        let modalsInfo := ps.modals
        let o2 := { optimizedPI with
          visible_modals2 := some (ps.visible_modal_count, modalsInfo.take 2) }
        if modalsInfo ≠ [] then
          let sortedModals := sortD modalKeyLt modalsInfo
          match sortedModals.head? with
          | some activeModal =>
            let amc : ActiveModalCtx :=
              { has_active_modal := true, has_form := activeModal.has_form,
                input_count := activeModal.input_count,
                selector := if optTruthy activeModal.selector then
                    pyTake (activeModal.selector.getD "") 50 else "" }
            { o2 with active_modal_context := some amc }
          | none =>
            { o2 with active_modal_context := some { has_active_modal := false } }
        else
          { o2 with active_modal_context := some { has_active_modal := false } }
      else
        { optimizedPI with active_modal_context := some { has_active_modal := false } }
    | none =>
      { optimizedPI with active_modal_context := some { has_active_modal := false } }
  let optimizedPI :=
    if st.completed_steps ≠ [] then
      { optimizedPI with completed_steps := st.completed_steps }
    else optimizedPI
  let optimizedPI :=
    if st.extracted_info ≠ [] then
      { optimizedPI with extracted_info := st.extracted_info.map fun dv =>
          (dv.1, pyTake dv.2 500 ++ (if dv.2.length > 500 then "..." else "")) }
    else optimizedPI
  let requirementsStatus := buildRequirementsStatus st
  let optimizedPI :=
    if requirementsStatus ≠ "" then
      { optimizedPI with requirements_status := some requirementsStatus }
    else optimizedPI
  (optimizedPI, cache)

/-- `if not max_tokens: max_tokens = config.MAX_CONTEXT_TOKENS` at the top
of `ContextManager.prepare_context` (`None` and `0` are both falsy). -/
def resolveMaxTokens (cfgMaxContextTokens : Int) : Option Int → Int
  | some m => if m = 0 then cfgMaxContextTokens else m
  | none => cfgMaxContextTokens

/-- `ContextManager.prepare_context`: assemble the bounded context, then
re-measure and apply the staged reductions when it exceeds the ceiling.
The tokenizer cache is threaded explicitly (the only `ContextManager`
state this method mutates). -/
def prepareContext (enc : String → List Nat) (dec : List Nat → String)
    (cfgMaxContextTokens : Int) (st : CtxMgrState) (cache : TokCache)
    (pi : PageInfo) (maxTokensArg : Option Int := none) : String × TokCache :=
  let maxTokens := resolveMaxTokens cfgMaxContextTokens maxTokensArg
  let rA := assembleOptPI enc dec st cache pi maxTokens
  let optimizedPI := rA.1
  let context := formatContext optimizedPI st.history
  let rT := countTokensC enc rA.2 context
  let contextTokens := rT.1
  let cache := rT.2
  if (contextTokens : Int) > maxTokens then
    let elements := optimizedPI.interactive_elements
    let importantElements := elements.filter fun e => (e.relevance_score.getD 0) > 5
    let lessImportantElements :=
      elements.filter fun e => ¬ ((e.relevance_score.getD 0) > 5)
    -- `reduction_factor > 0.8` is the exact ratio test `max/ctx > 4/5`:
    let optimizedPI :=
      if 5 * maxTokens > 4 * (contextTokens : Int) then
        let elements := elements.map fun e =>
          match e.text with
          | some t =>
            if t ≠ "" ∧ t.length > 30 then { e with text := some (pyTake t 30) }
            else e
          | none => e
        let shrunkPreview := pyTake optimizedPI.visible_text_preview 500
        { optimizedPI with interactive_elements := elements, visible_text_preview := shrunkPreview }
      else
        let keepCount : Int := max 10 (pyIntDiv
          ((lessImportantElements.length : Int) * maxTokens) (contextTokens : Int))
        let keptElements := importantElements ++ lessImportantElements.take keepCount.toNat
        let shrunkPreview := pyTake optimizedPI.visible_text_preview 200
        { optimizedPI with interactive_elements := keptElements, visible_text_preview := shrunkPreview }
    let _contextIntermediate := formatContext optimizedPI st.history
    let importantHistory := st.history.filter fun h =>
      h.action = "navigate" ∨ (h.action = "click_element" ∧ h.success) ∨
        h.action = "task_complete"
    let recentHistory :=
      if st.history.length > 3 then pyLastN st.history 3 else st.history
    let combinedHistory := importantHistory ++
      recentHistory.filter fun h => ¬ importantHistory.contains h
    let context := formatContext optimizedPI (pyLastN combinedHistory 5)
    let rT2 := countTokensC enc cache context
    let contextTokens2 := rT2.1
    let cache := rT2.2
    if (contextTokens2 : Int) > maxTokens then
      -- in the Python source `important_elements` aliases the (possibly
      -- text-shrunk) element dicts; value-wise it equals the score filter
      -- of the current element list:
      let importantElements2 :=
        if importantElements = [] then
          let currentElements := optimizedPI.interactive_elements
          let filtered := currentElements.filter fun e => (e.relevance_score.getD 0) > 5
          if filtered = [] then currentElements.take 15 else filtered
        else optimizedPI.interactive_elements.filter fun e =>
          (e.relevance_score.getD 0) > 5
      let optimizedPI := { optimizedPI with
        interactive_elements := importantElements2.take 15,
        visible_text_preview := "" }
      let context := formatContext optimizedPI
        (if combinedHistory.length > 2 then pyLastN combinedHistory 2
         else combinedHistory)
      (context, cache)
    else (context, cache)
  else (context, cache)

/-- `ContextManager.estimate_request_size`. -/
def estimateRequestSize (enc : String → List Nat) (cache : TokCache)
    (systemPrompt userMessage : String) (toolsJson : Option String) :
    Nat × TokCache :=
  let rS := countTokensC enc cache systemPrompt
  let rU := countTokensC enc rS.2 userMessage
  match toolsJson with
  | some ts =>
    let rT := countTokensC enc rU.2 ts
    (rS.1 + rU.1 + rT.1, rT.2)
  | none => (rS.1 + rU.1 + 0, rU.2)

/-- Outcome of the request-budget check of `MainAgent._decide_action`
(lines 1262–1299): either a request is sent to the oracle (`sent`, with the
final user message, whether the context was re-derived, and the final
measured size) or the iteration fails (`budgetExceeded`). -/
inductive DecideBudget where
  | sent (userMessage : String) (retried : Bool) (finalRequestSize : Nat)
  | budgetExceeded (requestSize toolsTokens systemTokens : Nat)
deriving Repr

/-- The request-budget phase of `MainAgent._decide_action`: measure the
request; if it exceeds the whole-request budget, re-derive the context at
the ceiling `MAX_REQUEST − tools − system − 500` (when positive) by calling
`prepare_context` on the page model, rebuild the user message and re-measure
— then send; fail only when that ceiling is not positive.
`buildUserMessage` abstracts `_build_user_message(context, task)`. -/
def decideBudgetPhase (enc : String → List Nat) (dec : List Nat → String)
    (cfgMaxContextTokens maxRequestTokens : Int) (st : CtxMgrState)
    (cache : TokCache) (systemPrompt : String)
    (buildUserMessage : String → String) (contextFirst : String)
    (toolsJson : String) (pim : PageInfo) : DecideBudget × TokCache :=
  let userMessage := buildUserMessage contextFirst
  let r1 := estimateRequestSize enc cache systemPrompt userMessage (some toolsJson)
  if (r1.1 : Int) > maxRequestTokens then
    let rTools := estimateRequestSize enc r1.2 "" "" (some toolsJson)
    let rSys := countTokensC enc rTools.2 systemPrompt
    let availableForContext : Int :=
      maxRequestTokens - rTools.1 - rSys.1 - 500
    if availableForContext > 0 then
      let rCtx := prepareContext enc dec cfgMaxContextTokens st
        rSys.2 pim (some availableForContext)
      let userMessage2 := buildUserMessage rCtx.1
      let r2 :=
        estimateRequestSize enc rCtx.2 systemPrompt userMessage2 (some toolsJson)
      (.sent userMessage2 true r2.1, r2.2)
    else (.budgetExceeded r1.1 rTools.1 rSys.1, rSys.2)
  else (.sent userMessage false r1.1, r1.2)

/-! ## `main_agent.py` — JSON repair of oracle tool-call arguments -/

/-- Python `s.count(c)` for a single character. -/
def countChar (s : String) (c : Char) : Nat := (s.data.filter (· = c)).length

/-- Python `s.endswith(suffix)`. -/
def pyEndsWith (s suffix : String) : Bool :=
  isPrefC suffix.data.reverse s.data.reverse

/-- Python `s.rfind(c)` for a single character: the last index, or `-1`. -/
def pyRfind (s : String) (c : Char) : Int :=
  match (s.data.reverse.findIdx? (· = c)) with
  | some i => (s.data.length : Int) - 1 - i
  | none => -1

/-- A string of `n` copies of a character (Python `c * n`). -/
def charRepeat (c : Char) (n : Nat) : String := String.mk (List.replicate n c)

/-- The JSON-repair function of `MainAgent._decide_action` (lines
1330–1366): strip, close unbalanced braces/brackets when the string does
not already end in one, then close an unbalanced quote. -/
def fixJsonStr (argsStr : String) : String :=
  let fixedStr := pyStrip argsStr
  let fixedStr :=
    if ¬ pyEndsWith fixedStr "\x7d" ∧ ¬ pyEndsWith fixedStr "]" then
      let openBraces := countChar fixedStr '\x7b'
      let closeBraces := countChar fixedStr '\x7d'
      let openBrackets := countChar fixedStr '['
      let closeBrackets := countChar fixedStr ']'
      let missingBraces := openBraces - closeBraces
      let missingBrackets := openBrackets - closeBrackets
      fixedStr ++ charRepeat '\x7d' missingBraces ++
        charRepeat ']' missingBrackets
    else fixedStr
  if sContains fixedStr "\"" then
    let quoteCount := countChar fixedStr '"'
    if quoteCount % 2 ≠ 0 then
      let lastQuoteIdx := pyRfind fixedStr '"'
      if lastQuoteIdx > 0 then
        let beforeQuote := pyTake fixedStr lastQuoteIdx.toNat
        let escapeCount := beforeQuote.length - (pyRstrip beforeQuote ['\\']).length
        if escapeCount % 2 = 0 then
          if ¬ pyEndsWith fixedStr "\x7d" then fixedStr ++ "\"\x7d"
          else
            String.mk (fixedStr.data.take (fixedStr.length - 1)) ++ "\"" ++
              String.mk (pyLastN fixedStr.data 1)
        else fixedStr
      else fixedStr
    else fixedStr
  else fixedStr

/-- The scanner of `re.findall(r'"(\w+)":\s*"([^"]*)"', args_str)`: the
pattern is deterministic (no backtracking can succeed, since `"` is neither
a word nor a whitespace character), so a left-to-right scan that retries at
the next position on failure is exact. -/
def salvageScanF : Nat → List Char → List (String × String)
  | 0, _ => []
  | _, [] => []
  | fuel + 1, c :: rest =>
    if c = '"' then
      let key := rest.takeWhile pyIsWordChar
      let afterKey := rest.drop key.length
      if key ≠ [] ∧ afterKey.take 2 = ['"', ':'] then
        let rest3 := (afterKey.drop 2).dropWhile pyIsSpaceRe
        if rest3.take 1 = ['"'] then
          let rest4 := rest3.drop 1
          let val := rest4.takeWhile (· ≠ '"')
          let afterVal := rest4.drop val.length
          if afterVal.take 1 = ['"'] then
            (String.mk key, String.mk val) :: salvageScanF fuel (afterVal.drop 1)
          else salvageScanF fuel rest
        else salvageScanF fuel rest
      else salvageScanF fuel rest
    else salvageScanF fuel rest

/-- The salvage scan on a character list; each step consumes at least one
character, so the list length is sufficient fuel. -/
def salvageScan (l : List Char) : List (String × String) :=
  salvageScanF l.length l

/-- Python dict insertion (`function_args[key] = value`): update in place
or append. -/
def pSet (p : Params) (k v : String) : Params :=
  if p.any (fun kv => kv.1 = k) then
    p.map fun kv => if kv.1 = k then (k, v) else kv
  else p.concat (k, v)

/-- A decision as returned by `_decide_action` for a tool call. -/
structure Decision where
  success : Bool
  action : String
  parameters : Params
  /-- which parsing path produced the parameters (recorded by the
  embedding): 0 = direct parse, 1 = repaired JSON, 2 = regex salvage. -/
  parse_tier : Nat
deriving Repr

/-- The argument-parsing ladder of `_decide_action` (lines 1321–1393):
`json.loads` — abstracted as the parameter `jparse`, since arbitrary JSON
values are external to this embedding — then the repaired string, then the
regex salvage of simple string pairs into a fresh dict. -/
def parseToolCallArgs (jparse : String → Option Params) (argsStr : String) :
    Params × Nat :=
  match jparse argsStr with
  | some args => (args, 0)
  | none =>
    match jparse (fixJsonStr argsStr) with
    | some args => (args, 1)
    | none =>
      ((salvageScan argsStr.data).foldl (fun acc kv => pSet acc kv.1 kv.2) [], 2)

/-- The tool-call branch of `_decide_action`: every parse outcome yields a
successful decision carrying the selected action name. -/
def decideFromToolCall (jparse : String → Option Params)
    (functionName argsStr : String) : Decision :=
  let (args, tier) := parseToolCallArgs jparse argsStr
  { success := true, action := functionName, parameters := args,
    parse_tier := tier }

/-! ## Concrete tokenizer instances and accessors for the witnesses -/

/-- A concrete tokenizer instance (one token per character) used to
instantiate the abstract `enc` parameter in concrete runs. -/
def encChars : String → List Nat := fun s => s.data.map Char.toNat

/-- The matching decoder for `encChars`. -/
def decChars : List Nat → String := fun l =>
  String.mk (l.map fun n => Char.ofNat n)

/-- Does a Decide-phase outcome send a request that was retried and still
measures over the given whole-request budget? -/
def sentOverBudget (maxRequestTokens : Int) : DecideBudget → Bool
  | .sent _ retried n => retried && maxRequestTokens < (n : Int)
  | .budgetExceeded _ _ _ => false

/-- The page model of the over-budget runs: a long URL and nothing else. -/
def longUrlPage : PageInfo := { url := charRepeat 'u' 60 }

/-! ## Theorems -/

/-- **C3** — Requirement gating: `can_complete_task` is true exactly when
every parsed requirement counter has reached its required count, and a
`task_complete` decision arriving while some counter is unsatisfied is
rejected by the gate of `execute_task` (the loop continues), regardless of
the deep completion check. -/
theorem c3_requirement_gating (st : ReqState) :
    (canCompleteTask st = true ↔
      ∀ kv ∈ st.requirements, kv.2 ≤ cmGet st.progress_counters kv.1) ∧
    (∀ kv ∈ st.requirements, cmGet st.progress_counters kv.1 < kv.2 →
      canCompleteTask st = false ∧
      ∀ (deepCheck : Except Unit (Bool × String)) (summary : String),
        ∃ reason, taskCompleteGate st deepCheck summary =
          .rejectedRequirements reason) := by
  have hall : canCompleteTask st = true ↔
      ∀ kv ∈ st.requirements, kv.2 ≤ cmGet st.progress_counters kv.1 := by
    simp [canCompleteTask, List.all_eq_true, ge_iff_le]
  refine ⟨hall, ?_⟩
  intro kv hmem hlt
  have hfalse : canCompleteTask st = false := by
    rw [Bool.eq_false_iff]
    intro htrue
    exact absurd (hall.mp htrue kv hmem) (by omega)
  refine ⟨hfalse, ?_⟩
  intro deepCheck summary
  refine ⟨if getPendingRequirementsMessage st ≠ "" then
    getPendingRequirementsMessage st else "Требования задачи не выполнены", ?_⟩
  simp [taskCompleteGate, hfalse]

/-- **C3 witness**: a requirement `applications: 3` with achieved count 2
blocks completion and any `task_complete` decision is rejected. -/
theorem c3_requirement_gating_witness :
    canCompleteTask
      { requirements := [("applications", 3)],
        progress_counters := [("applications", 2)] } = false ∧
    taskCompleteGate
      { requirements := [("applications", 3)],
        progress_counters := [("applications", 2)] }
      (.ok (true, "done")) "все сделано" =
      .rejectedRequirements "нужно 3 applications, выполнено 2" := by
  have h := (c3_requirement_gating
    { requirements := [("applications", 3)],
      progress_counters := [("applications", 2)] }).2
    ("applications", 3) (by decide) (by decide)
  refine ⟨h.1, ?_⟩
  decide

/-- **C4** — The Reflect phase never advances requirement progress: the
body of `ContextManager.update_progress` is `pass`, so the achieved counts
are unchanged by every successful action, and for the task "откликнись на
3 вакансии" (requirement `applications: 3`, achieved 0) `can_complete_task`
is false — and stays false forever, contradicting the spec's claim that
successful actions advance the counters until `task_complete` is accepted. -/
theorem c4_progress_never_advances :
    (∀ (st : ReqState) (decision : String × Params) (actionResult : ActionRes)
        (outcome : Option String),
      updateProgress st decision actionResult outcome = st) ∧
    parseTaskRequirements "Откликнись на 3 вакансии" = [("applications", 3)] ∧
    canCompleteTask
      { requirements := parseTaskRequirements "Откликнись на 3 вакансии",
        progress_counters := [] } = false := by
  refine ⟨fun _ _ _ _ => rfl, ?_, ?_⟩ <;> decide

/-- **C7** — Validator tier short-circuit: for a `type_text` action whose
result reports success, tier-1 heuristic validation alone returns
`is_valid = true` (whatever the page diff), and the pipeline returns that
verdict for every cache state and every oracle, i.e. without an oracle
call. -/
theorem c7_type_text_short_circuit (ar : ValActionResult)
    (h : ar.success = true) :
    ∀ (cacheLookup : Option ValidationVerdict)
      (oracleVerdict : Unit → ValidationVerdict),
      validateActionResult cacheLookup oracleVerdict "type_text" ar =
        { is_valid := true,
          validation_message := "Текст успешно введен в поле",
          suggestions := [], from_cache := false, heuristic := true } := by
  intro cacheLookup oracleVerdict
  simp [validateActionResult, heuristicValidation, h]

/-- **C7 witness**: a successful `type_text` with no page change validates
heuristically, with a rejecting oracle and a poisoned cache in place. -/
theorem c7_type_text_short_circuit_witness :
    validateActionResult
      (some { is_valid := false, validation_message := "из кэша" })
      (fun _ => { is_valid := false, validation_message := "оракул" })
      "type_text" { success := true, page_changed := false } =
      { is_valid := true, validation_message := "Текст успешно введен в поле",
        suggestions := [], from_cache := false, heuristic := true } :=
  c7_type_text_short_circuit { success := true, page_changed := false } rfl _ _

/-- **C10** — When the oracle's tool-call argument string is not valid
JSON, the Decide step still returns a successful decision for the selected
action: it parses the repaired string (closing unbalanced braces, brackets
and quotes), or salvages simple string key/value pairs by pattern matching
into a possibly partial or empty parameter map. -/
theorem c10_json_repair (jparse : String → Option Params)
    (functionName argsStr : String) (h : jparse argsStr = none) :
    (decideFromToolCall jparse functionName argsStr).success = true ∧
    (decideFromToolCall jparse functionName argsStr).action = functionName ∧
    (decideFromToolCall jparse functionName argsStr).parameters =
      (match jparse (fixJsonStr argsStr) with
       | some args => args
       | none => (salvageScan argsStr.data).foldl
           (fun acc kv => pSet acc kv.1 kv.2) []) := by
  unfold decideFromToolCall parseToolCallArgs
  rw [h]
  cases hfix : jparse (fixJsonStr argsStr) <;> simp

/-- **C10 witness**: a truncated argument string is repaired by closing the
brace (the parser accepts the repaired string), and with a parser that
rejects everything, the salvage path still yields a successful decision
with the extracted string pairs. -/
theorem c10_json_repair_witness :
    fixJsonStr "\x7b\"url\": \"https://hh.ru\"" =
      "\x7b\"url\": \"https://hh.ru\"\x7d" ∧
    (decideFromToolCall (fun _ => none) "navigate"
        "\x7b\"url\": \"https://hh.ru\", \"wait\": tru").success = true ∧
    (decideFromToolCall (fun _ => none) "navigate"
        "\x7b\"url\": \"https://hh.ru\", \"wait\": tru").parameters =
      [("url", "https://hh.ru")] := by
  have h := c10_json_repair (fun _ => none) "navigate"
    "\x7b\"url\": \"https://hh.ru\", \"wait\": tru" rfl
  refine ⟨by decide, h.1, ?_⟩
  rw [h.2.2]
  decide

/-- **C9 counterexample** — the claim quantifies over every error text
*containing* "Timeout 10000ms exceeded", but the keyword table is checked
in priority order: an error that also matches the earlier element-not-found
pattern is classified `scroll`, not `wait`. -/
theorem c9_counterexample :
    sContains "element not found: Timeout 10000ms exceeded"
      "Timeout 10000ms exceeded" = true ∧
    (heuristicErrorHandling "element not found: Timeout 10000ms exceeded"
      "click_element").map (·.strategy) = some "scroll" := by
  constructor <;> decide

/-- **C9 (amended)** — For every action name and retry count below the
limit, classifying the failure with error text exactly
`"Timeout 10000ms exceeded"` (Scenario E) returns strategy `wait` with a
non-empty suggestion, produced by the tier-1 keyword table: the result is
the same for every pattern table, cache state and oracle analysis. -/
theorem c9_timeout_strategy_wait (action : String) (retryCount : Nat)
    (h : retryCount < 3) :
    ∀ (patternSolution cacheLookup : Option ErrStrat) (aiResult : ErrStrat),
      handleError patternSolution cacheLookup aiResult
        "Timeout 10000ms exceeded" action retryCount =
        .advice "Timeout 10000ms exceeded"
          "Превышен таймаут ожидания. Страница может загружаться медленно или элемент появляется с задержкой. Подождите загрузки страницы и попробуйте снова."
          (some "wait") true (retryCount + 1) 1 ∧
      "Превышен таймаут ожидания. Страница может загружаться медленно или элемент появляется с задержкой. Подождите загрузки страницы и попробуйте снова."
        ≠ "" := by
  intro patternSolution cacheLookup aiResult
  have hheur : heuristicErrorHandling "Timeout 10000ms exceeded" action =
      some ⟨"Превышен таймаут ожидания. Страница может загружаться медленно или элемент появляется с задержкой. Подождите загрузки страницы и попробуйте снова.", "wait"⟩ := by
    unfold heuristicErrorHandling
    have hlow : pyLower "Timeout 10000ms exceeded" =
        "timeout 10000ms exceeded" := by decide
    rw [hlow]
    have h1 : (sContains "timeout 10000ms exceeded" "not found" ||
        sContains "timeout 10000ms exceeded" "не найден" ||
        sContains "timeout 10000ms exceeded" "element not found") = false := by
      decide
    have h2 : (sContains "timeout 10000ms exceeded" "timeout" ||
        sContains "timeout 10000ms exceeded" "таймаут" ||
        sContains "timeout 10000ms exceeded" "timed out") = true := by decide
    simp only [h1, Bool.false_eq_true, if_false, h2, if_true]
  constructor
  · unfold handleError
    rw [if_neg (by omega), hheur]
    simp [h]
  · decide

/-- **C9 witness**: Scenario E at `action = "click_element"`, first retry,
with an adversarial pattern table, cache and oracle in place. -/
theorem c9_timeout_strategy_wait_witness :
    handleError (some ⟨"паттерн", "scroll"⟩) (some ⟨"кэш", "alternative"⟩)
      ⟨"оракул", "use_search"⟩ "Timeout 10000ms exceeded" "click_element" 0 =
      .advice "Timeout 10000ms exceeded"
        "Превышен таймаут ожидания. Страница может загружаться медленно или элемент появляется с задержкой. Подождите загрузки страницы и попробуйте снова."
        (some "wait") true 1 1 :=
  (c9_timeout_strategy_wait "click_element" 0 (by decide) _ _ _).1

/-- **C6 counterexample** — the two Scenario C queries do *not* normalize
to the same key: `_normalize_query` strips only *trailing* punctuation, so
the inner `?` after "box" survives; and even for a detected repeat the
execute step still issues the query (it only logs a warning). -/
theorem c6_counterexample :
    normalizeQuery "Is there a search box? selector?" ≠
      normalizeQuery "is there a search box selector" ∧
    (queryDomPrecheckStep
        (addQueryDom [] "Is there a search box? selector?" "Да, поле поиска есть"
          "https://example.com" 1)
        "is there a search box selector" "https://example.com").executes = true := by
  constructor <;> decide

/-- **C6 (amended)** — The two Scenario C queries normalize to *different*
keys but are recognized as duplicates by the ≥70 %-word-overlap similarity
check, so `was_query_asked` returns true for the second query on the same
URL and `get_query_answer` serves the recorded answer; the pre-check of
`execute_task`, however, only logs this warning with the cached answer —
the query is executed again rather than served from the QueryRecord
history. -/
theorem c6_similar_query_detected :
    wasQueryAsked
      (addQueryDom [] "Is there a search box? selector?" "Да, поле поиска есть"
        "https://example.com" 1)
      "is there a search box selector" "https://example.com" = true ∧
    getQueryAnswer
      (addQueryDom [] "Is there a search box? selector?" "Да, поле поиска есть"
        "https://example.com" 1)
      "is there a search box selector" "https://example.com" =
      some "Да, поле поиска есть" ∧
    areQueriesSimilar (normalizeQuery "is there a search box selector")
      (normalizeQuery "Is there a search box? selector?") = true ∧
    queryDomPrecheckStep
      (addQueryDom [] "Is there a search box? selector?" "Да, поле поиска есть"
        "https://example.com" 1)
      "is there a search box selector" "https://example.com" =
      { executes := true, warned := true,
        previous_answer := some "Да, поле поиска есть" } := by
  refine ⟨?_, ?_, ?_, ?_⟩ <;> decide

/-! ### Cycle-monotonicity toolbox (C2) -/

/-- The Python slice `[-k:]` of a replicated list. -/
theorem pyLastN_replicate (x : α) (n k : Nat) :
    pyLastN (List.replicate n x) k = List.replicate (min k n) x := by
  unfold pyLastN
  rw [List.length_replicate, List.drop_replicate]
  congr 1
  omega

/-- The signature tuple of an identical-record history entry. -/
theorem getActionSignature_mkRec (a : String) (p : Params) :
    getActionSignature (mkRec a p) =
      (a ++ ":" ++ jsonDumpsSorted p, false, false, a) := rfl

/-- The scan of `_check_consecutive_repeats` over `k` further identical
no-change signatures, entered with running count `c` and matching previous
signature, fires exactly when the count can reach the class threshold. -/
theorem scanRepeats_replicate_isSome (recent : List ActionRec) (ct nt : Nat)
    (s a : String) (k c : Nat) :
    (scanRepeats recent ct nt (List.replicate k (s, false, false, a)) c
      (some s)).isSome = true ↔
      (1 ≤ k ∧ (if isCriticalAction a then ct else nt) ≤ c + k) := by
  induction k generalizing c with
  | zero => simp [scanRepeats]
  | succ k ih =>
    rw [List.replicate_succ]
    by_cases hth : (if isCriticalAction a then ct else nt) ≤ c + 1
    · simp only [scanRepeats, if_pos rfl]
      simp only [Bool.not_false, Bool.and_self, if_true, ge_iff_le, hth,
        if_pos, Option.isSome_some]
      constructor
      · intro _; exact ⟨by omega, by omega⟩
      · intro _; trivial
    · simp only [scanRepeats, if_pos rfl]
      simp only [Bool.not_false, Bool.and_self, if_true, ge_iff_le, hth,
        if_neg, if_false]
      rw [ih (c + 1)]
      omega

/-- Check 1 on a history of `m ≥ 2` identical successful no-change records
fires exactly when `m` reaches the class threshold. -/
theorem checkConsecutiveRepeats_replicate (a : String) (p : Params) (m : Nat)
    (hm : 2 ≤ m) :
    (checkConsecutiveRepeats (List.replicate m (mkRec a p)) 2 3).isSome = true ↔
      (if isCriticalAction a then 2 else 3) ≤ m := by
  unfold checkConsecutiveRepeats
  rw [List.length_replicate, if_neg (by omega), List.map_replicate,
    getActionSignature_mkRec]
  obtain ⟨m', rfl⟩ : ∃ m', m = m' + 1 := ⟨m - 1, by omega⟩
  rw [List.replicate_succ]
  simp only [scanRepeats, reduceCtorEq, if_false]
  rw [scanRepeats_replicate_isSome]
  by_cases hcrit : isCriticalAction a = true <;> simp [hcrit] <;> omega

/-- Check 2 never fires on successful records. -/
theorem checkRepeatingErrors_replicate_none (a : String) (p : Params) (m : Nat) :
    checkRepeatingErrors (List.replicate m (mkRec a p)) 2 = none := by
  simp [checkRepeatingErrors, List.filter_replicate, mkRec, optTruthy]

/-- Check 3 never fires when the action is not `navigate`. -/
theorem checkRepeatingUrls_replicate_none (a : String) (p : Params) (m : Nat)
    (h : a ≠ "navigate") :
    checkRepeatingUrls (List.replicate m (mkRec a p)) 2 = none := by
  simp [checkRepeatingUrls, List.filter_replicate, mkRec, h]

/-- `detect_loop` on exactly two identical successful no-change records of
a non-critical action: only the dedicated `extract_text` / `query_dom`
checks can fire. -/
theorem detectLoop_two (a : String) (p : Params)
    (hcrit : isCriticalAction a = false) :
    (detectLoop (List.replicate 2 (mkRec a p)) 4).isSome = true ↔
      ((a = "extract_text" ∧ pGetD p "description" ≠ "") ∨
       (a = "query_dom" ∧ pGetD p "query" ≠ "")) := by
  have hnav : a ≠ "navigate" := by
    intro h
    rw [h] at hcrit
    simp [isCriticalAction] at hcrit
  have h1 : checkConsecutiveRepeats (List.replicate 2 (mkRec a p)) 2 3 = none := by
    have h := checkConsecutiveRepeats_replicate a p 2 (by omega)
    rw [hcrit] at h
    simp only [Bool.false_eq_true, if_false] at h
    cases hx : checkConsecutiveRepeats (List.replicate 2 (mkRec a p)) 2 3 with
    | none => rfl
    | some v =>
      rw [hx] at h
      exact absurd (h.mp rfl) (by omega)
  have h2 := checkRepeatingErrors_replicate_none a p 2
  have h3 := checkRepeatingUrls_replicate_none a p 2 hnav
  have hpairs : indexPairs 2 = [(0, 1)] := by decide
  have m1 : min (4 * 2) 2 = 2 := by norm_num
  have m2 : min 6 2 = 2 := by norm_num
  have m3 : min 4 2 = 2 := by norm_num
  have m4 : min 3 2 = 2 := by norm_num
  have m5 : min 5 2 = 2 := by norm_num
  have hlt : ((2 : Nat) < 2) = False := by norm_num
  simp only [detectLoop, List.length_replicate, pyLastN_replicate, m1, m2, m3,
    m4, m5, hlt, if_false]
  simp only [h1, h2, h3]
  norm_num [List.map_replicate, checkPatternRepetition,
    List.filter_replicate, mkRec, hpairs]
  by_cases hext : a = "extract_text"
  · subst hext
    simp only [if_true, reduceIte]
    by_cases hd : pGetD p "description" = ""
    · simp [uniqueCount, hd]
    · simp [uniqueCount, hd]
  · by_cases hqd : a = "query_dom"
    · subst hqd
      simp only [if_true, reduceIte]
      by_cases hq : pGetD p "query" = ""
      · simp [hq]
      · simp [uniqueCount, hq, hpairs]
    · simp [hext, hqd]

/-- **C2 counterexample** — two consecutive identical successful
`extract_text` records with no page diff are flagged by `detect_loop`
(via its dedicated check) although `extract_text` is not a
navigation/element-interaction action, so the claimed threshold for it is
3: N = 2 < 3 already yields a positive verdict. -/
theorem c2_counterexample :
    (detectLoop
      (List.replicate 2 (mkRec "extract_text" [("description", "price")])) 4).isSome
      = true ∧
    isCriticalAction "extract_text" = false ∧ (2 : Nat) < 3 := by
  refine ⟨?_, ?_, ?_⟩ <;> decide

/-- **C2 (amended)** — Cycle monotonicity with the two dedicated checks
accounted for: for a history of `N` identical records (same action name and
parameters, successful result, no URL/title/structure/modal/form change),
`detect_loop` returns a positive verdict exactly when `N` reaches the
effective threshold — 2 for `navigate` and `click_element`; 2 also for
`extract_text` with a non-empty `description` parameter and for `query_dom`
with a non-empty `query` parameter (flagged by the dedicated checks 5/6);
3 for all other actions — and `None` for `N` below it. -/
theorem c2_cycle_threshold (a : String) (p : Params) (N : Nat) :
    (detectLoop (List.replicate N (mkRec a p)) 4).isSome = true ↔
      effThreshold a p ≤ N := by
  by_cases hN : N < 2
  · have hnone : detectLoop (List.replicate N (mkRec a p)) 4 = none := by
      unfold detectLoop
      rw [List.length_replicate, if_pos hN]
    have hth : 2 ≤ effThreshold a p := by
      unfold effThreshold
      split_ifs <;> omega
    rw [hnone]
    simp
    omega
  · push_neg at hN
    by_cases hfire : (if isCriticalAction a then 2 else 3) ≤ min 6 N
    · have hmin : min 6 (min (4 * 2) N) = min 6 N := by omega
      have h1 : (checkConsecutiveRepeats
          (List.replicate (min 6 N) (mkRec a p)) 2 3).isSome = true :=
        (checkConsecutiveRepeats_replicate a p (min 6 N)
          (by omega)).mpr hfire
      obtain ⟨v, hv⟩ := Option.isSome_iff_exists.mp h1
      have hdet : detectLoop (List.replicate N (mkRec a p)) 4 = some v := by
        unfold detectLoop
        rw [List.length_replicate, if_neg (by omega)]
        simp only [pyLastN_replicate, hmin, hv]
      rw [hdet]
      simp only [Option.isSome_some, true_iff]
      have hminN : min 6 N ≤ N := by omega
      by_cases hcrit : isCriticalAction a = true
      · rw [hcrit] at hfire
        unfold effThreshold
        rw [hcrit]
        simp at hfire ⊢
        omega
      · rw [Bool.not_eq_true] at hcrit
        rw [hcrit] at hfire
        unfold effThreshold
        rw [hcrit]
        simp only [Bool.false_eq_true, if_false] at hfire ⊢
        split_ifs <;> omega
    · have hcrit : isCriticalAction a = false := by
        by_contra h
        rw [Bool.not_eq_false] at h
        rw [h] at hfire
        simp at hfire
        omega
      rw [hcrit] at hfire
      simp only [Bool.false_eq_true, if_false] at hfire
      have hN2 : N = 2 := by omega
      subst hN2
      rw [detectLoop_two a p hcrit]
      unfold effThreshold
      rw [hcrit]
      simp only [Bool.false_eq_true, if_false]
      split_ifs with hx hy
      · simp [hx]
      · simp [hy, hx]
      · simp [hx, hy]

/-! ### Token-cache lemmas (C1, C5, C8)

`count_tokens` consults a mutable cache; these lemmas show the cache is
semantically transparent: from any consistent cache the returned count is
the tokenizer's count, and consistency is preserved — hence every
cache-threading computation returns the same values from any consistent
starting cache. -/

/-- From a consistent cache, `count_tokens` returns the tokenizer count
and leaves a consistent cache. -/
theorem countTokensC_spec (enc : String → List Nat) (cache : TokCache)
    (s : String) (h : CacheConsistent enc cache) :
    (countTokensC enc cache s).1 = (enc s).length ∧
    CacheConsistent enc (countTokensC enc cache s).2 := by
  unfold countTokensC
  split
  · cases hfind : (cache.find? fun kv => kv.1 = s) with
    | none =>
      simp only [hfind, Option.map_none']
      constructor
      · trivial
      · have hcc : CacheConsistent enc (cache.concat (s, (enc s).length)) := by
          intro kv hkv
          rw [List.concat_eq_append, List.mem_append] at hkv
          cases hkv with
          | inl hm => exact h kv hm
          | inr hm =>
            rw [List.mem_singleton] at hm
            subst hm
            rfl
        split
        · intro kv hkv
          exact hcc kv (List.mem_of_mem_drop hkv)
        · exact hcc
    | some kv =>
      have hp := List.find?_some hfind
      have hm := List.mem_of_find?_eq_some hfind
      simp only [decide_eq_true_eq] at hp
      simp only [hfind, Option.map_some']
      exact ⟨by rw [h kv hm, hp], h⟩
  · exact ⟨rfl, h⟩

/-- One element step of `_optimize_elements` computes the same kept list
and token total from any consistent cache, and preserves consistency. -/
theorem optimizeElementStep_agree (enc : String → List Nat) (maxT : Int)
    (tt : Option String) (el : El) (opt : List CompactEl) (cur : Int)
    (c1 c2 : TokCache) (h1 : CacheConsistent enc c1)
    (h2 : CacheConsistent enc c2) :
    (optimizeElementStep enc maxT tt opt cur c1 el).1 =
      (optimizeElementStep enc maxT tt opt cur c2 el).1 ∧
    (optimizeElementStep enc maxT tt opt cur c1 el).2.1 =
      (optimizeElementStep enc maxT tt opt cur c2 el).2.1 ∧
    CacheConsistent enc (optimizeElementStep enc maxT tt opt cur c1 el).2.2 := by
  obtain ⟨ha1, ha2⟩ := countTokensC_spec enc c1
    (compactRepr (buildCompact tt (maxT - cur) el)) h1
  obtain ⟨hb1, hb2⟩ := countTokensC_spec enc c2
    (compactRepr (buildCompact tt (maxT - cur) el)) h2
  rcases hA : countTokensC enc c1 (compactRepr (buildCompact tt (maxT - cur) el))
    with ⟨n1, d1⟩
  rcases hB : countTokensC enc c2 (compactRepr (buildCompact tt (maxT - cur) el))
    with ⟨n2, d2⟩
  rw [hA] at ha1 ha2
  rw [hB] at hb1 hb2
  simp only at ha1 ha2 hb1 hb2
  obtain ⟨hc1, hc2⟩ := countTokensC_spec enc d1
    (compactRepr (shrinkCompact (maxT - cur) (buildCompact tt (maxT - cur) el))) ha2
  obtain ⟨hd1, hd2⟩ := countTokensC_spec enc d2
    (compactRepr (shrinkCompact (maxT - cur) (buildCompact tt (maxT - cur) el))) hb2
  rcases hC : countTokensC enc d1
      (compactRepr (shrinkCompact (maxT - cur) (buildCompact tt (maxT - cur) el)))
    with ⟨m1, e1⟩
  rcases hD : countTokensC enc d2
      (compactRepr (shrinkCompact (maxT - cur) (buildCompact tt (maxT - cur) el)))
    with ⟨m2, e2⟩
  rw [hC] at hc1 hc2
  rw [hD] at hd1 hd2
  simp only at hc1 hc2 hd1 hd2
  have hn : n1 = n2 := by rw [ha1, hb1]
  have hm : m1 = m2 := by rw [hc1, hd1]
  subst hn hm
  simp only [optimizeElementStep]
  rw [hA, hB, hC, hD]
  split
  · exact ⟨rfl, rfl, ha2⟩
  · split
    · split
      · exact ⟨rfl, rfl, hc2⟩
      · split
        · exact ⟨rfl, rfl, hc2⟩
        · split
          · exact ⟨rfl, rfl, hc2⟩
          · split
            · exact ⟨rfl, rfl, hc2⟩
            · exact ⟨rfl, rfl, hc2⟩
    · exact ⟨rfl, rfl, ha2⟩

/-- Value part of `countTokensC_spec`, convenient for rewriting. -/
theorem countTokensC_fst (enc : String → List Nat) (cache : TokCache)
    (s : String) (h : CacheConsistent enc cache) :
    (countTokensC enc cache s).1 = (enc s).length :=
  (countTokensC_spec enc cache s h).1

/-- Consistency part of `countTokensC_spec`. -/
theorem countTokensC_snd (enc : String → List Nat) (cache : TokCache)
    (s : String) (h : CacheConsistent enc cache) :
    CacheConsistent enc (countTokensC enc cache s).2 :=
  (countTokensC_spec enc cache s h).2

/-- The element fold of `_optimize_elements` computes the same kept list and
token total from any consistent cache, and preserves consistency. -/
theorem optimizeFold_agree (enc : String → List Nat) (maxT : Int)
    (tt : Option String) (els : List El) :
    ∀ (opt : List CompactEl) (cur : Int) (c1 c2 : TokCache),
    CacheConsistent enc c1 → CacheConsistent enc c2 →
    (els.foldl (fun acc element =>
        optimizeElementStep enc maxT tt acc.1 acc.2.1 acc.2.2 element)
        (opt, cur, c1)).1 =
      (els.foldl (fun acc element =>
        optimizeElementStep enc maxT tt acc.1 acc.2.1 acc.2.2 element)
        (opt, cur, c2)).1 ∧
    (els.foldl (fun acc element =>
        optimizeElementStep enc maxT tt acc.1 acc.2.1 acc.2.2 element)
        (opt, cur, c1)).2.1 =
      (els.foldl (fun acc element =>
        optimizeElementStep enc maxT tt acc.1 acc.2.1 acc.2.2 element)
        (opt, cur, c2)).2.1 ∧
    CacheConsistent enc ((els.foldl (fun acc element =>
        optimizeElementStep enc maxT tt acc.1 acc.2.1 acc.2.2 element)
        (opt, cur, c1)).2.2) := by
  induction els with
  | nil => intro opt cur c1 c2 h1 h2; exact ⟨rfl, rfl, h1⟩
  | cons el rest ih =>
    intro opt cur c1 c2 h1 h2
    obtain ⟨hl, ht, hc⟩ := optimizeElementStep_agree enc maxT tt el opt cur c1 c2 h1 h2
    obtain ⟨-, -, hc2⟩ := optimizeElementStep_agree enc maxT tt el opt cur c2 c1 h2 h1
    rcases hS1 : optimizeElementStep enc maxT tt opt cur c1 el with ⟨o1, t1, d1⟩
    rcases hS2 : optimizeElementStep enc maxT tt opt cur c2 el with ⟨o2, t2, d2⟩
    rw [hS1, hS2] at hl ht
    rw [hS1] at hc
    rw [hS2] at hc2
    simp only at hl ht hc hc2
    subst hl ht
    simp only [List.foldl_cons, hS1, hS2]
    exact ih o1 t1 d1 d2 hc hc2

/-- `_optimize_elements` computes the same element list from any consistent
cache, and preserves consistency. -/
theorem optimizeElements_agree (enc : String → List Nat) (els : List El)
    (maxT : Int) (tt : Option String) (c1 c2 : TokCache)
    (h1 : CacheConsistent enc c1) (h2 : CacheConsistent enc c2) :
    (optimizeElements enc c1 els maxT tt).1 =
      (optimizeElements enc c2 els maxT tt).1 ∧
    CacheConsistent enc (optimizeElements enc c1 els maxT tt).2 := by
  by_cases he : els = []
  · simp only [optimizeElements, if_pos he]
    exact ⟨trivial, h1⟩
  · simp only [optimizeElements, if_neg he]
    exact ⟨(optimizeFold_agree enc maxT tt _ [] 0 c1 c2 h1 h2).1,
      (optimizeFold_agree enc maxT tt _ [] 0 c1 c2 h1 h2).2.2⟩

/-- `TokenOptimizer.optimize_page_info` computes the same optimized page
model from any consistent cache, and preserves consistency. -/
theorem optimizePageInfo_agree (enc : String → List Nat) (dec : List Nat → String)
    (pi : PageInfo) (maxT : Int) (tt : Option String) (c1 c2 : TokCache)
    (h1 : CacheConsistent enc c1) (h2 : CacheConsistent enc c2) :
    (optimizePageInfo enc dec c1 pi maxT tt).1 =
      (optimizePageInfo enc dec c2 pi maxT tt).1 ∧
    CacheConsistent enc (optimizePageInfo enc dec c1 pi maxT tt).2 := by
  obtain ⟨hEv, hEc1⟩ := optimizeElements_agree enc pi.interactive_elements
    (pyIntDiv ((maxT - max 500 (pyIntDiv (maxT * 2) 10)) * 7) 10) tt c1 c2 h1 h2
  obtain ⟨-, hEc2⟩ := optimizeElements_agree enc pi.interactive_elements
    (pyIntDiv ((maxT - max 500 (pyIntDiv (maxT * 2) 10)) * 7) 10) tt c2 c1 h2 h1
  rcases hpl : pi.location_context with - | lc <;>
    rcases hpv : pi.visible_modals with - | vm
  · simp only [optimizePageInfo, hpl, hpv, hEv]
    rw [countTokensC_fst enc _ _ hEc1, countTokensC_fst enc _ _ hEc2]
    exact ⟨rfl, countTokensC_snd enc _ _ hEc1⟩
  · simp only [optimizePageInfo, hpl, hpv, hEv]
    rw [countTokensC_fst enc _ _ hEc1, countTokensC_fst enc _ _ hEc2]
    rw [countTokensC_fst enc _ _ (countTokensC_snd enc _ _ hEc1),
      countTokensC_fst enc _ _ (countTokensC_snd enc _ _ hEc2)]
    exact ⟨rfl, countTokensC_snd enc _ _ (countTokensC_snd enc _ _ hEc1)⟩
  · simp only [optimizePageInfo, hpl, hpv, hEv]
    rw [countTokensC_fst enc _ _ hEc1, countTokensC_fst enc _ _ hEc2]
    rw [countTokensC_fst enc _ _ (countTokensC_snd enc _ _ hEc1),
      countTokensC_fst enc _ _ (countTokensC_snd enc _ _ hEc2)]
    exact ⟨rfl, countTokensC_snd enc _ _ (countTokensC_snd enc _ _ hEc1)⟩
  · simp only [optimizePageInfo, hpl, hpv, hEv]
    rw [countTokensC_fst enc _ _ hEc1, countTokensC_fst enc _ _ hEc2]
    rw [countTokensC_fst enc _ _ (countTokensC_snd enc _ _ hEc1),
      countTokensC_fst enc _ _ (countTokensC_snd enc _ _ hEc2)]
    rw [countTokensC_fst enc _ _
        (countTokensC_snd enc _ _ (countTokensC_snd enc _ _ hEc1)),
      countTokensC_fst enc _ _
        (countTokensC_snd enc _ _ (countTokensC_snd enc _ _ hEc2))]
    exact ⟨rfl, countTokensC_snd enc _ _
      (countTokensC_snd enc _ _ (countTokensC_snd enc _ _ hEc1))⟩

/-- The assembly phase of `prepare_context` computes the same optimized page
model from any consistent cache, and preserves consistency. -/
theorem assembleOptPI_agree (enc : String → List Nat) (dec : List Nat → String)
    (st : CtxMgrState) (pi : PageInfo) (maxT : Int) (c1 c2 : TokCache)
    (h1 : CacheConsistent enc c1) (h2 : CacheConsistent enc c2) :
    (assembleOptPI enc dec st c1 pi maxT).1 =
      (assembleOptPI enc dec st c2 pi maxT).1 ∧
    CacheConsistent enc (assembleOptPI enc dec st c1 pi maxT).2 := by
  obtain ⟨hPv, hPc⟩ := optimizePageInfo_agree enc dec pi maxT
    (if optTruthy st.current_task then prepareTaskType (st.current_task.getD "")
     else none) c1 c2 h1 h2
  constructor
  · simp only [assembleOptPI, hPv]
  · simp only [assembleOptPI]
    exact hPc

/-- First components of two conditionals with the same condition agree when
the first components of both branches agree. -/
theorem fstEq_if {α β : Type} {C : Prop} [Decidable C] (x y x' y' : α × β)
    (hx : x.1 = x'.1) (hy : y.1 = y'.1) :
    (if C then x else y).1 = (if C then x' else y').1 := by
  by_cases h : C
  · rw [if_pos h, if_pos h]; exact hx
  · rw [if_neg h, if_neg h]; exact hy

/-- The cache component of a conditional is consistent when both branches
carry consistent caches. -/
theorem consistentSnd_if {C : Prop} [Decidable C] {enc : String → List Nat}
    (x y : String × TokCache) (hx : CacheConsistent enc x.2)
    (hy : CacheConsistent enc y.2) :
    CacheConsistent enc (if C then x else y).2 := by
  by_cases h : C
  · rw [if_pos h]; exact hx
  · rw [if_neg h]; exact hy

/-- `ContextManager.prepare_context` returns the same context string from any
consistent cache, and preserves consistency. -/
theorem prepareContext_agree (enc : String → List Nat) (dec : List Nat → String)
    (cfgMax : Int) (st : CtxMgrState) (pi : PageInfo) (mt : Option Int)
    (c1 c2 : TokCache) (h1 : CacheConsistent enc c1)
    (h2 : CacheConsistent enc c2) :
    (prepareContext enc dec cfgMax st c1 pi mt).1 =
      (prepareContext enc dec cfgMax st c2 pi mt).1 ∧
    CacheConsistent enc (prepareContext enc dec cfgMax st c1 pi mt).2 := by
  obtain ⟨hAv, hAc1⟩ := assembleOptPI_agree enc dec st pi
    (resolveMaxTokens cfgMax mt) c1 c2 h1 h2
  have hAc2 := (assembleOptPI_agree enc dec st pi
    (resolveMaxTokens cfgMax mt) c2 c1 h2 h1).2
  constructor
  · simp only [prepareContext, hAv]
    rw [countTokensC_fst enc _ _ hAc1, countTokensC_fst enc _ _ hAc2]
    rw [countTokensC_fst enc _ _ (countTokensC_snd enc _ _ hAc1),
      countTokensC_fst enc _ _ (countTokensC_snd enc _ _ hAc2)]
    exact fstEq_if _ _ _ _ (fstEq_if _ _ _ _ rfl rfl) rfl
  · simp only [prepareContext]
    refine consistentSnd_if _ _ (consistentSnd_if _ _ ?_ ?_) ?_
    · exact countTokensC_snd enc _ _ (countTokensC_snd enc _ _ hAc1)
    · exact countTokensC_snd enc _ _ (countTokensC_snd enc _ _ hAc1)
    · exact countTokensC_snd enc _ _ hAc1

/-- `ContextManager.estimate_request_size` with a tool catalog returns the
sum of the tokenizer counts, from any consistent cache, and preserves
consistency. -/
theorem estimateRequestSize_some (enc : String → List Nat) (cache : TokCache)
    (sys um ts : String) (h : CacheConsistent enc cache) :
    (estimateRequestSize enc cache sys um (some ts)).1 =
      (enc sys).length + (enc um).length + (enc ts).length ∧
    CacheConsistent enc (estimateRequestSize enc cache sys um (some ts)).2 := by
  simp only [estimateRequestSize]
  rw [countTokensC_fst enc _ _ h,
    countTokensC_fst enc _ _ (countTokensC_snd enc _ _ h),
    countTokensC_fst enc _ _
      (countTokensC_snd enc _ _ (countTokensC_snd enc _ _ h))]
  exact ⟨rfl, countTokensC_snd enc _ _
    (countTokensC_snd enc _ _ (countTokensC_snd enc _ _ h))⟩

/-- **C8** — Idempotent assembly: from any consistent tokenizer cache,
calling `prepare_context` twice with identical inputs (same page model,
same `max_tokens`, same task/history state) yields identical output
strings — the second call starts from the cache state the first call left
behind, and the cache is semantically transparent. -/
theorem c8_prepare_idempotent (enc : String → List Nat)
    (dec : List Nat → String) (cfgMax : Int) (st : CtxMgrState)
    (pi : PageInfo) (mt : Option Int) (c0 : TokCache)
    (h : CacheConsistent enc c0) :
    (prepareContext enc dec cfgMax st
        (prepareContext enc dec cfgMax st c0 pi mt).2 pi mt).1 =
      (prepareContext enc dec cfgMax st c0 pi mt).1 :=
  (prepareContext_agree enc dec cfgMax st pi mt
    (prepareContext enc dec cfgMax st c0 pi mt).2 c0
    (prepareContext_agree enc dec cfgMax st pi mt c0 c0 h h).2 h).1

/-- Witness for C8 at a concrete input: the empty cache is consistent and
the two successive calls return the same string. -/
theorem c8_prepare_idempotent_witness :
    CacheConsistent encChars [] ∧
    (prepareContext encChars decChars 3000 {}
        (prepareContext encChars decChars 3000 {} [] longUrlPage none).2
        longUrlPage none).1 =
      (prepareContext encChars decChars 3000 {} [] longUrlPage none).1 :=
  ⟨fun kv hkv => absurd hkv (List.not_mem_nil kv),
   c8_prepare_idempotent encChars decChars 3000 {} longUrlPage none []
     (fun kv hkv => absurd hkv (List.not_mem_nil kv))⟩

/-- C1 counterexample: with the positive ceiling `max_tokens = 10` and a
page whose URL alone is 60 characters, the context returned by
`prepare_context` measures more than 10 tokens under the one-token-per-
character tokenizer `encChars` (for a consistent cache the estimator's
count is exactly this length, by `countTokensC_spec`): the final
aggressive reduction stage returns its result without re-measuring, and
the fixed URL/title overhead of `format_context` is never cut. -/
theorem c1_counterexample :
    (encChars (prepareContext encChars decChars 3000 {} [] longUrlPage
      (some 10)).1).length > 10 := by decide

/-- **C1** (amended) — the post-condition holds when the initially
assembled context fits: if the token count of the formatted assembly is
within the (non-zero) requested ceiling `M`, `prepare_context` returns it
unchanged, and the returned context measures at most `M`. In general the
hard post-condition of the spec fails (`c1_counterexample`). -/
theorem c1_fit_returned (enc : String → List Nat) (dec : List Nat → String)
    (cfgMax : Int) (st : CtxMgrState) (pi : PageInfo) (M : Int) (hM : M ≠ 0)
    (c0 : TokCache) (h : CacheConsistent enc c0)
    (hfit : ((enc (formatContext
        (assembleOptPI enc dec st c0 pi M).1 st.history)).length : Int) ≤ M) :
    (prepareContext enc dec cfgMax st c0 pi (some M)).1 =
      formatContext (assembleOptPI enc dec st c0 pi M).1 st.history ∧
    ((enc (prepareContext enc dec cfgMax st c0 pi (some M)).1).length : Int)
      ≤ M := by
  have hres : resolveMaxTokens cfgMax (some M) = M := by
    simp [resolveMaxTokens, hM]
  have hAc1 : CacheConsistent enc (assembleOptPI enc dec st c0 pi M).2 :=
    (assembleOptPI_agree enc dec st pi M c0 c0 h h).2
  have hcount : (countTokensC enc (assembleOptPI enc dec st c0 pi M).2
      (formatContext (assembleOptPI enc dec st c0 pi M).1 st.history)).1 =
      (enc (formatContext (assembleOptPI enc dec st c0 pi M).1
        st.history)).length :=
    countTokensC_fst enc _ _ hAc1
  have hmain : (prepareContext enc dec cfgMax st c0 pi (some M)).1 =
      formatContext (assembleOptPI enc dec st c0 pi M).1 st.history := by
    simp only [prepareContext, hres, hcount, gt_iff_lt]
    rw [if_neg (not_lt.mpr hfit)]
  exact ⟨hmain, by rw [hmain]; exact hfit⟩

/-- Witness for C1 at a concrete input where the assembly fits the default
ceiling of 3000. -/
theorem c1_fit_returned_witness :
    ((encChars (prepareContext encChars decChars 3000 {} [] longUrlPage
      (some 3000)).1).length : Int) ≤ 3000 :=
  (c1_fit_returned encChars decChars 3000 {} longUrlPage 3000 (by decide) []
    (fun kv hkv => absurd hkv (List.not_mem_nil kv)) (by decide)).2

/-- C5 counterexample: a request that is over the 600-token whole-request
budget triggers the context re-derivation, and the retried request — still
over budget (the 600-character prefix added by the user-message builder
alone exceeds it) — is sent anyway rather than failing the iteration as
`BudgetExceeded`. -/
theorem c5_counterexample :
    sentOverBudget 600 (decideBudgetPhase encChars decChars 3000 600 {} []
      (charRepeat 's' 30) (fun c => charRepeat 'x' 600 ++ c) "ctx"
      (charRepeat 't' 20) longUrlPage).1 = true := by
  set_option maxRecDepth 8000 in decide

/-- **C5** (amended) — the Decide-phase budget check: (i) a fitting request
is sent unchanged; (ii) an over-budget request with a positive remaining
ceiling `MAX_REQUEST − tools − system − 500` has its context re-derived
from the page model by `prepare_context` at that ceiling, and the retried
request is then sent unconditionally — even if it still exceeds the
budget; (iii) the iteration fails as `BudgetExceeded` exactly when the
first request is over budget and that remaining ceiling is not positive —
not when the retried request cannot fit. -/
theorem c5_retry_then_send (enc : String → List Nat) (dec : List Nat → String)
    (cfgMax maxReq : Int) (st : CtxMgrState) (c0 : TokCache) (sys : String)
    (bum : String → String) (ctx tools : String) (pim : PageInfo)
    (h : CacheConsistent enc c0) :
    (¬ ((((enc sys).length + (enc (bum ctx)).length + (enc tools).length :
          Nat) : Int) > maxReq) →
      (decideBudgetPhase enc dec cfgMax maxReq st c0 sys bum ctx tools pim).1 =
        .sent (bum ctx) false
          ((enc sys).length + (enc (bum ctx)).length + (enc tools).length)) ∧
    (((((enc sys).length + (enc (bum ctx)).length + (enc tools).length :
          Nat) : Int) > maxReq) →
      maxReq - (((enc "").length + (enc "").length + (enc tools).length :
          Nat) : Int) - ((enc sys).length : Int) - 500 > 0 →
      ∃ n, (decideBudgetPhase enc dec cfgMax maxReq st c0 sys bum ctx tools
          pim).1 =
        .sent (bum (prepareContext enc dec cfgMax st c0 pim
          (some (maxReq - (((enc "").length + (enc "").length +
            (enc tools).length : Nat) : Int) - ((enc sys).length : Int) -
            500))).1) true n) ∧
    ((∃ a b c, (decideBudgetPhase enc dec cfgMax maxReq st c0 sys bum ctx
        tools pim).1 = .budgetExceeded a b c) ↔
      (((((enc sys).length + (enc (bum ctx)).length + (enc tools).length :
          Nat) : Int) > maxReq) ∧
        ¬ (maxReq - (((enc "").length + (enc "").length +
          (enc tools).length : Nat) : Int) - ((enc sys).length : Int) -
          500 > 0))) := by
  obtain ⟨e1v, e1c⟩ := estimateRequestSize_some enc c0 sys (bum ctx) tools h
  obtain ⟨e2v, e2c⟩ := estimateRequestSize_some enc
    (estimateRequestSize enc c0 sys (bum ctx) (some tools)).2 "" "" tools e1c
  have e3v := countTokensC_fst enc
    (estimateRequestSize enc (estimateRequestSize enc c0 sys (bum ctx)
      (some tools)).2 "" "" (some tools)).2 sys e2c
  have e3c := countTokensC_snd enc
    (estimateRequestSize enc (estimateRequestSize enc c0 sys (bum ctx)
      (some tools)).2 "" "" (some tools)).2 sys e2c
  refine ⟨?_, ?_, ?_⟩
  · intro hfit
    simp only [decideBudgetPhase, e1v]
    rw [if_neg hfit]
  · intro hover hpos
    have hPv := (prepareContext_agree enc dec cfgMax st pim
      (some (maxReq - (((enc "").length + (enc "").length +
        (enc tools).length : Nat) : Int) - ((enc sys).length : Int) - 500))
      (countTokensC enc (estimateRequestSize enc (estimateRequestSize enc c0
        sys (bum ctx) (some tools)).2 "" "" (some tools)).2 sys).2
      c0 e3c h).1
    simp only [decideBudgetPhase, e1v, e2v, e3v]
    rw [if_pos hover, if_pos hpos, hPv]
    exact ⟨_, rfl⟩
  · constructor
    · rintro ⟨a, b, c, hEq⟩
      by_cases hover : (((enc sys).length + (enc (bum ctx)).length +
          (enc tools).length : Nat) : Int) > maxReq
      · by_cases hpos : maxReq - (((enc "").length + (enc "").length +
            (enc tools).length : Nat) : Int) - ((enc sys).length : Int) -
            500 > 0
        · exfalso
          simp only [decideBudgetPhase, e1v, e2v, e3v] at hEq
          rw [if_pos hover, if_pos hpos] at hEq
          exact DecideBudget.noConfusion hEq
        · exact ⟨hover, hpos⟩
      · exfalso
        simp only [decideBudgetPhase, e1v] at hEq
        rw [if_neg hover] at hEq
        exact DecideBudget.noConfusion hEq
    · rintro ⟨hover, hnpos⟩
      simp only [decideBudgetPhase, e1v, e2v, e3v]
      rw [if_pos hover, if_neg hnpos]
      exact ⟨_, _, _, rfl⟩

/-- Witness for C5 at a concrete fitting input, via conjunct (i). -/
theorem c5_retry_then_send_witness :
    (decideBudgetPhase encChars decChars 3000 600 {} [] "sys" (fun c => c)
      "ctx" "tools" longUrlPage).1 =
      .sent "ctx" false ((encChars "sys").length + (encChars "ctx").length +
        (encChars "tools").length) :=
  (c5_retry_then_send encChars decChars 3000 600 {} [] "sys" (fun c => c)
    "ctx" "tools" longUrlPage
    (fun kv hkv => absurd hkv (List.not_mem_nil kv))).1 (by decide)
end WebJarvis
